import Mathlib

/-!
Embedding of evthread.c: callback registry, dispatch shims, debug lock wrapper
and global lock orchestrator

A shallow embedding of `src/evthread.c`.

* The six file-scope globals form one record, `ProcessLockState`; every
  function that reads or writes them takes the record and returns the new one.
* A function pointer is a value of `FnPtr`: `NULL`, the address of one of the
  five static debug functions of the file, or the address of a function of the
  embedding application. Pointer comparison is equality of these values.
* A `void *` handle is a `Nat`, `0` being `NULL`.
* A `struct debug_lock *` argument is passed as the record it points to and
  handed back updated.
* Code behind a function pointer runs on an application world `W`; `Env W`
  gives, for each C function type, what a call through a pointer does.
* `count` is a C `int` of 32 bits; the field is an `Int`, and `++` and `--`
  on it wrap around at `INT_MAX` and `INT_MIN` (`int_incr`, `int_decr`).
-/

namespace Evthread

/-! ## Data model -/

/-- The static functions of evthread.c whose addresses the file stores in
callback tables. -/
inductive StaticFn where
  | debug_lock_alloc
  | debug_lock_free
  | debug_lock_lock
  | debug_lock_unlock
  | debug_cond_wait
deriving DecidableEq, Repr

/-- A C function pointer. -/
inductive FnPtr where
  | NULL
  | static (f : StaticFn)
  | app (addr : Nat)
deriving DecidableEq, Repr

/-- The `struct evthread_lock_callbacks` of event2/thread.h. -/
structure evthread_lock_callbacks where
  lock_api_version : Int
  supported_locktypes : Nat
  alloc : FnPtr
  free : FnPtr
  lock : FnPtr
  unlock : FnPtr
deriving DecidableEq, Repr

/-- The `struct evthread_condition_callbacks` of event2/thread.h. -/
structure evthread_condition_callbacks where
  condition_api_version : Int
  alloc_condition : FnPtr
  free_condition : FnPtr
  signal_condition : FnPtr
  wait_condition : FnPtr
deriving DecidableEq, Repr

/-- The globals of evthread.c (lines 48-63). -/
structure ProcessLockState where
  _evthread_lock_debugging_enabled : Int
  _evthread_lock_fns : evthread_lock_callbacks
  _evthread_id_fn : FnPtr
  _evthread_cond_fns : evthread_condition_callbacks
  _original_lock_fns : evthread_lock_callbacks
  _original_cond_fns : evthread_condition_callbacks
deriving DecidableEq, Repr

/-- The value `memset(.., 0, ..)` leaves in a lock callback table. -/
def zero_lock_fns : evthread_lock_callbacks :=
  { lock_api_version := 0, supported_locktypes := 0, alloc := FnPtr.NULL,
    free := FnPtr.NULL, lock := FnPtr.NULL, unlock := FnPtr.NULL }

/-- The value `memset(.., 0, ..)` leaves in a condition callback table. -/
def zero_cond_fns : evthread_condition_callbacks :=
  { condition_api_version := 0, alloc_condition := FnPtr.NULL,
    free_condition := FnPtr.NULL, signal_condition := FnPtr.NULL,
    wait_condition := FnPtr.NULL }

/-- The initialisers of the globals (lines 48-63). -/
def initial_state : ProcessLockState :=
  { _evthread_lock_debugging_enabled := 0
    _evthread_lock_fns := zero_lock_fns
    _evthread_id_fn := FnPtr.NULL
    _evthread_cond_fns := zero_cond_fns
    _original_lock_fns := zero_lock_fns
    _original_cond_fns := zero_cond_fns }

/-- The messages evthread.c passes to `event_warnx`. -/
inductive Warning where
  | disable_lock_functions
  | change_lock_callbacks
  | disable_condition_functions
  | change_condition_callbacks
deriving DecidableEq, Repr

/-- A call a registration function makes to a collaborator outside the file. -/
inductive Event where
  | event_warnx (m : Warning)
  | event_global_setup_locks_ (enable_locks : Int)
deriving DecidableEq, Repr

/-- What a registration function leaves behind: the `int` it returns, the
globals after the call, and the collaborator calls it made, in order. -/
structure Ret where
  status : Int
  state : ProcessLockState
  trace : List Event
deriving DecidableEq, Repr

/-! ## Callback registry -/

/-- Line 65-69. -/
def evthread_set_id_callback (s : ProcessLockState) (id_fn : FnPtr) : ProcessLockState :=
  { s with _evthread_id_fn := id_fn }

/-- The table `target` points to in `evthread_set_lock_callbacks`
(lines 76-78). -/
def lock_target (s : ProcessLockState) : evthread_lock_callbacks :=
  if s._evthread_lock_debugging_enabled ≠ 0 then s._original_lock_fns
  else s._evthread_lock_fns

/-- A store through `target` in `evthread_set_lock_callbacks`. -/
def set_lock_target (s : ProcessLockState) (v : evthread_lock_callbacks) :
    ProcessLockState :=
  if s._evthread_lock_debugging_enabled ≠ 0 then { s with _original_lock_fns := v }
  else { s with _evthread_lock_fns := v }

/-- Lines 71-112. `cbs = none` is the null argument. `setup_status` is the
value `event_global_setup_locks_(1)` returns in this call: that function is
defined outside this file; it reaches the globals only through
`evthread_setup_global_lock_`, which writes none of them. -/
def evthread_set_lock_callbacks (setup_status : Int) (s : ProcessLockState)
    (cbs : Option evthread_lock_callbacks) : Ret :=
  match cbs with
  | none =>
    { status := 0
      state := set_lock_target s zero_lock_fns
      trace := if (lock_target s).alloc ≠ FnPtr.NULL
               then [Event.event_warnx Warning.disable_lock_functions] else [] }
  | some c =>
    if (lock_target s).alloc ≠ FnPtr.NULL then
      if (lock_target s).lock_api_version = c.lock_api_version ∧
         (lock_target s).supported_locktypes = c.supported_locktypes ∧
         (lock_target s).alloc = c.alloc ∧
         (lock_target s).free = c.free ∧
         (lock_target s).lock = c.lock ∧
         (lock_target s).unlock = c.unlock then
        { status := 0, state := s, trace := [] }
      else
        { status := -1, state := s,
          trace := [Event.event_warnx Warning.change_lock_callbacks] }
    else if c.alloc ≠ FnPtr.NULL ∧ c.free ≠ FnPtr.NULL ∧ c.lock ≠ FnPtr.NULL ∧
            c.unlock ≠ FnPtr.NULL then
      { status := setup_status
        state := set_lock_target s c
        trace := [Event.event_global_setup_locks_ 1] }
    else
      { status := -1, state := s, trace := [] }

/-- The table `target` points to in `evthread_set_condition_callbacks`
(lines 117-119). -/
def cond_target (s : ProcessLockState) : evthread_condition_callbacks :=
  if s._evthread_lock_debugging_enabled ≠ 0 then s._original_cond_fns
  else s._evthread_cond_fns

/-- A store through `target` in `evthread_set_condition_callbacks`. -/
def set_cond_target (s : ProcessLockState) (v : evthread_condition_callbacks) :
    ProcessLockState :=
  if s._evthread_lock_debugging_enabled ≠ 0 then { s with _original_cond_fns := v }
  else { s with _evthread_cond_fns := v }

/-- Lines 147-151: the stores into `_evthread_cond_fns` made when debugging is
enabled. -/
def patch_active_cond (s : ProcessLockState) (c : evthread_condition_callbacks) :
    ProcessLockState :=
  if s._evthread_lock_debugging_enabled ≠ 0 then
    { s with _evthread_cond_fns :=
        { s._evthread_cond_fns with
            alloc_condition := c.alloc_condition
            free_condition := c.free_condition
            signal_condition := c.signal_condition } }
  else s

/-- Lines 114-153. `cbs = none` is the null argument. -/
def evthread_set_condition_callbacks (s : ProcessLockState)
    (cbs : Option evthread_condition_callbacks) : Ret :=
  match cbs with
  | none =>
    { status := 0
      state := set_cond_target s zero_cond_fns
      trace := if (cond_target s).alloc_condition ≠ FnPtr.NULL
               then [Event.event_warnx Warning.disable_condition_functions] else [] }
  | some c =>
    if (cond_target s).alloc_condition ≠ FnPtr.NULL then
      if (cond_target s).condition_api_version = c.condition_api_version ∧
         (cond_target s).alloc_condition = c.alloc_condition ∧
         (cond_target s).free_condition = c.free_condition ∧
         (cond_target s).signal_condition = c.signal_condition ∧
         (cond_target s).wait_condition = c.wait_condition then
        { status := 0, state := s, trace := [] }
      else
        { status := -1, state := s,
          trace := [Event.event_warnx Warning.change_condition_callbacks] }
    else
      { status := 0
        state := patch_active_cond
          (if c.alloc_condition ≠ FnPtr.NULL ∧ c.free_condition ≠ FnPtr.NULL ∧
              c.signal_condition ≠ FnPtr.NULL ∧ c.wait_condition ≠ FnPtr.NULL
           then set_cond_target s c else s) c
        trace := [] }

/-- The constants of event2/thread.h that evthread.c uses. The header is not
part of the sources at hand, so the values are parameters. -/
structure ThreadH where
  EVTHREAD_WRITE : Nat
  EVTHREAD_READ : Nat
  EVTHREAD_LOCK_API_VERSION : Int
  EVTHREAD_LOCKTYPE_RECURSIVE : Nat
  EVTHREAD_LOCKTYPE_READWRITE : Nat
deriving DecidableEq, Repr

/-- The table `cbs` built in `evthread_enable_lock_debuging` (lines 289-296). -/
def debug_lock_fns (H : ThreadH) : evthread_lock_callbacks :=
  { lock_api_version := H.EVTHREAD_LOCK_API_VERSION
    supported_locktypes := H.EVTHREAD_LOCKTYPE_RECURSIVE
    alloc := FnPtr.static StaticFn.debug_lock_alloc
    free := FnPtr.static StaticFn.debug_lock_free
    lock := FnPtr.static StaticFn.debug_lock_lock
    unlock := FnPtr.static StaticFn.debug_lock_unlock }

/-- Lines 286-316. The function returns nothing; `status` is 0. The value of
`event_global_setup_locks_(0)` is dropped by the code. -/
def evthread_enable_lock_debuging (H : ThreadH) (s : ProcessLockState) : Ret :=
  if s._evthread_lock_debugging_enabled ≠ 0 then
    { status := 0, state := s, trace := [] }
  else
    { status := 0
      state :=
        { _evthread_lock_debugging_enabled := 1
          _evthread_lock_fns := debug_lock_fns H
          _evthread_id_fn := s._evthread_id_fn
          _evthread_cond_fns :=
            { s._evthread_cond_fns with
                wait_condition := FnPtr.static StaticFn.debug_cond_wait }
          _original_lock_fns := s._evthread_lock_fns
          _original_cond_fns := s._evthread_cond_fns }
      trace := [Event.event_global_setup_locks_ 0] }

/-- The states the process can be in: the initialisers, and what the four
registration functions make of a state the process can be in. -/
inductive Reachable (H : ThreadH) : ProcessLockState → Prop where
  | init : Reachable H initial_state
  | set_id (s : ProcessLockState) (f : FnPtr) :
      Reachable H s → Reachable H (evthread_set_id_callback s f)
  | set_lock (s : ProcessLockState) (st : Int) (cbs : Option evthread_lock_callbacks) :
      Reachable H s → Reachable H (evthread_set_lock_callbacks st s cbs).state
  | set_cond (s : ProcessLockState) (cbs : Option evthread_condition_callbacks) :
      Reachable H s → Reachable H (evthread_set_condition_callbacks s cbs).state
  | enable (s : ProcessLockState) :
      Reachable H s → Reachable H (evthread_enable_lock_debuging H s).state

/-! ## Running code behind function pointers -/

/-- How a piece of code ends: it returns `val` and leaves the state `st`, or a
fatal assertion stops the process in state `st`. -/
inductive Outcome (σ α : Type) where
  | ok (val : α) (st : σ)
  | fatal (st : σ)
deriving DecidableEq, Repr

/-- A `void *`; `0` is `NULL`. -/
abbrev Ptr := Nat

/-- A `const struct timeval *`: `none` is `NULL`, else seconds and
microseconds. -/
abbrev Timeval := Option (Int × Int)

/-- What a call through a function pointer does to the application world `W`,
one field per C function type used in the callback tables. -/
structure Env (W : Type) extends ThreadH where
  /-- The type `unsigned long (*)(void)`. -/
  call_id : FnPtr → W → Outcome W Nat
  /-- The type `void *(*)(unsigned)`. -/
  call_alloc : FnPtr → Nat → W → Outcome W Ptr
  /-- The type `void (*)(void *, unsigned)`. -/
  call_free : FnPtr → Ptr → Nat → W → Outcome W Unit
  /-- The type `int (*)(unsigned, void *)`. -/
  call_lockop : FnPtr → Nat → Ptr → W → Outcome W Int
  /-- The type `void (*)(void *)`. -/
  call_cond_free : FnPtr → Ptr → W → Outcome W Unit
  /-- The type `int (*)(void *, int)`. -/
  call_signal : FnPtr → Ptr → Int → W → Outcome W Int
  /-- The type `int (*)(void *, void *, const struct timeval *)`. -/
  call_wait : FnPtr → Ptr → Ptr → Timeval → W → Outcome W Int

/-! ## Dispatch shim (lines 395-468) -/

section Shim
variable {W : Type}

/-- Lines 396-400. -/
def _evthreadimpl_get_id (K : Env W) (s : ProcessLockState) (w : W) : Outcome W Nat :=
  if s._evthread_id_fn ≠ FnPtr.NULL then K.call_id s._evthread_id_fn w
  else Outcome.ok 1 w

/-- Lines 401-406. -/
def _evthreadimpl_lock_alloc (K : Env W) (s : ProcessLockState) (locktype : Nat)
    (w : W) : Outcome W Ptr :=
  if s._evthread_lock_fns.alloc ≠ FnPtr.NULL then
    K.call_alloc s._evthread_lock_fns.alloc locktype w
  else Outcome.ok 0 w

/-- Lines 407-412. -/
def _evthreadimpl_lock_free (K : Env W) (s : ProcessLockState) (lock : Ptr)
    (locktype : Nat) (w : W) : Outcome W Unit :=
  if s._evthread_lock_fns.free ≠ FnPtr.NULL then
    K.call_free s._evthread_lock_fns.free lock locktype w
  else Outcome.ok () w

/-- Lines 413-420. -/
def _evthreadimpl_lock_lock (K : Env W) (s : ProcessLockState) (mode : Nat)
    (lock : Ptr) (w : W) : Outcome W Int :=
  if s._evthread_lock_fns.lock ≠ FnPtr.NULL then
    K.call_lockop s._evthread_lock_fns.lock mode lock w
  else Outcome.ok 0 w

/-- Lines 421-428. -/
def _evthreadimpl_lock_unlock (K : Env W) (s : ProcessLockState) (mode : Nat)
    (lock : Ptr) (w : W) : Outcome W Int :=
  if s._evthread_lock_fns.unlock ≠ FnPtr.NULL then
    K.call_lockop s._evthread_lock_fns.unlock mode lock w
  else Outcome.ok 0 w

/-- Lines 429-434. -/
def _evthreadimpl_cond_alloc (K : Env W) (s : ProcessLockState) (condtype : Nat)
    (w : W) : Outcome W Ptr :=
  if s._evthread_cond_fns.alloc_condition ≠ FnPtr.NULL then
    K.call_alloc s._evthread_cond_fns.alloc_condition condtype w
  else Outcome.ok 0 w

/-- Lines 435-440. -/
def _evthreadimpl_cond_free (K : Env W) (s : ProcessLockState) (cond : Ptr)
    (w : W) : Outcome W Unit :=
  if s._evthread_cond_fns.free_condition ≠ FnPtr.NULL then
    K.call_cond_free s._evthread_cond_fns.free_condition cond w
  else Outcome.ok () w

/-- Lines 441-448. -/
def _evthreadimpl_cond_signal (K : Env W) (s : ProcessLockState) (cond : Ptr)
    (broadcast : Int) (w : W) : Outcome W Int :=
  if s._evthread_cond_fns.signal_condition ≠ FnPtr.NULL then
    K.call_signal s._evthread_cond_fns.signal_condition cond broadcast w
  else Outcome.ok 0 w

/-- Lines 449-456. -/
def _evthreadimpl_cond_wait (K : Env W) (s : ProcessLockState) (cond : Ptr)
    (lock : Ptr) (tv : Timeval) (w : W) : Outcome W Int :=
  if s._evthread_cond_fns.wait_condition ≠ FnPtr.NULL then
    K.call_wait s._evthread_cond_fns.wait_condition cond lock tv w
  else Outcome.ok 0 w

/-- Lines 457-461. -/
def _evthreadimpl_is_lock_debugging_enabled (s : ProcessLockState) : Int :=
  s._evthread_lock_debugging_enabled

/-- Lines 463-467. -/
def _evthreadimpl_locking_enabled (s : ProcessLockState) : Int :=
  if s._evthread_lock_fns.lock ≠ FnPtr.NULL then 1 else 0

end Shim

/-! ## Debug lock wrapper (lines 155-330) -/

/-- The `struct debug_lock` of lines 155-162. -/
structure debug_lock where
  locktype : Nat
  held_by : Nat
  count : Int
  lock : Ptr
deriving DecidableEq, Repr

/-- The largest value of a C `int` (32 bits), the type of `count`. -/
def INT_MAX : Int := 2147483647

/-- The least value of a C `int` (32 bits). -/
def INT_MIN : Int := -2147483648

/-- The `++` of line 209 on the `int` field `count`. From `INT_MAX` the
addition overflows; the value is taken to wrap around to `INT_MIN`, as it does
on the two's-complement machines the library runs on. -/
def int_incr (c : Int) : Int :=
  if c = INT_MAX then INT_MIN else c + 1

/-- The `--` of line 256 on the `int` field `count`, wrapping around from
`INT_MIN` to `INT_MAX`. -/
def int_decr (c : Int) : Int :=
  if c = INT_MIN then INT_MAX else c - 1

/-- Modelled from the spec: the macro `EVUTIL_ASSERT` comes from
util-internal.h, which is not among the sources at hand. The spec calls it
`a fatal-abort assertion primitive for invariant violations`,
`process-terminating assertions, not propagated as values`: when `cond` fails
the process stops in the state `st` it has reached, otherwise `rest` runs. -/
def EVUTIL_ASSERT {σ α : Type} (cond : Prop) [Decidable cond] (st : σ)
    (rest : Outcome σ α) : Outcome σ α :=
  if cond then rest else Outcome.fatal st

section Debug
variable {W : Type}

/-- Lines 164-186. `mm_malloc_ok` tells whether `mm_malloc` hands out memory;
the result `none` is the null return. -/
def debug_lock_alloc (K : Env W) (g : ProcessLockState) (mm_malloc_ok : Bool)
    (locktype : Nat) (w : W) : Outcome W (Option debug_lock) :=
  if mm_malloc_ok = false then Outcome.ok none w
  else if g._original_lock_fns.alloc ≠ FnPtr.NULL then
    match K.call_alloc g._original_lock_fns.alloc
        (locktype ||| K.EVTHREAD_LOCKTYPE_RECURSIVE) w with
    | Outcome.fatal w1 => Outcome.fatal w1
    | Outcome.ok h w1 =>
      if h = 0 then Outcome.ok none w1
      else Outcome.ok
        (some { locktype := locktype, held_by := 0, count := 0, lock := h }) w1
  else
    Outcome.ok (some { locktype := locktype, held_by := 0, count := 0, lock := 0 }) w

/-- Lines 188-201. The record handed back is what the freed memory holds. -/
def debug_lock_free (K : Env W) (g : ProcessLockState) (lock : debug_lock)
    (locktype : Nat) (w : W) : Outcome (debug_lock × W) Unit :=
  EVUTIL_ASSERT (lock.count = 0) (lock, w) <|
  EVUTIL_ASSERT (locktype = lock.locktype) (lock, w) <|
  match (if g._original_lock_fns.free ≠ FnPtr.NULL then
           K.call_free g._original_lock_fns.free lock.lock
             (lock.locktype ||| K.EVTHREAD_LOCKTYPE_RECURSIVE) w
         else Outcome.ok () w) with
  | Outcome.fatal w1 => Outcome.fatal (lock, w1)
  | Outcome.ok _ w1 => Outcome.ok () ({ lock with lock := 0, count := -100 }, w1)

/-- Lines 203-221. -/
def evthread_debug_lock_mark_locked (K : Env W) (g : ProcessLockState) (_mode : Nat)
    (lock : debug_lock) (w : W) : Outcome (debug_lock × W) Unit :=
  let lock1 : debug_lock := { lock with count := int_incr lock.count }
  EVUTIL_ASSERT (lock1.locktype &&& K.EVTHREAD_LOCKTYPE_RECURSIVE = 0 → lock1.count = 1)
    (lock1, w) <|
  if g._evthread_id_fn ≠ FnPtr.NULL then
    match K.call_id g._evthread_id_fn w with
    | Outcome.fatal w1 => Outcome.fatal (lock1, w1)
    | Outcome.ok me w1 =>
      EVUTIL_ASSERT (lock1.count > 1 → lock1.held_by = me) (lock1, w1) <|
      Outcome.ok () ({ lock1 with held_by := me }, w1)
  else Outcome.ok () (lock1, w)

/-- The two assertions of lines 228-231 and of lines 246-249: the mode has a
READ or WRITE bit on a READWRITE lock and neither on any other lock. -/
def mode_fits (H : ThreadH) (locktype mode : Nat) : Prop :=
  if locktype &&& H.EVTHREAD_LOCKTYPE_READWRITE ≠ 0 then
    mode &&& (H.EVTHREAD_READ ||| H.EVTHREAD_WRITE) ≠ 0
  else
    mode &&& (H.EVTHREAD_READ ||| H.EVTHREAD_WRITE) = 0

instance (H : ThreadH) (locktype mode : Nat) : Decidable (mode_fits H locktype mode) := by
  unfold mode_fits; infer_instance

/-- Lines 223-241. -/
def debug_lock_lock (K : Env W) (g : ProcessLockState) (mode : Nat)
    (lock : debug_lock) (w : W) : Outcome (debug_lock × W) Int :=
  EVUTIL_ASSERT (mode_fits K.toThreadH lock.locktype mode) (lock, w) <|
  match (if g._original_lock_fns.lock ≠ FnPtr.NULL then
           K.call_lockop g._original_lock_fns.lock mode lock.lock w
         else Outcome.ok 0 w) with
  | Outcome.fatal w1 => Outcome.fatal (lock, w1)
  | Outcome.ok res w1 =>
    if res = 0 then
      match evthread_debug_lock_mark_locked K g mode lock w1 with
      | Outcome.fatal st => Outcome.fatal st
      | Outcome.ok _ st => Outcome.ok res st
    else Outcome.ok res (lock, w1)

/-- Lines 243-258. -/
def evthread_debug_lock_mark_unlocked (K : Env W) (g : ProcessLockState) (mode : Nat)
    (lock : debug_lock) (w : W) : Outcome (debug_lock × W) Unit :=
  EVUTIL_ASSERT (mode_fits K.toThreadH lock.locktype mode) (lock, w) <|
  if g._evthread_id_fn ≠ FnPtr.NULL then
    match K.call_id g._evthread_id_fn w with
    | Outcome.fatal w1 => Outcome.fatal (lock, w1)
    | Outcome.ok me w1 =>
      EVUTIL_ASSERT (lock.held_by = me) (lock, w1) <|
      let lock1 : debug_lock := if lock.count = 1 then { lock with held_by := 0 } else lock
      let lock2 : debug_lock := { lock1 with count := int_decr lock1.count }
      EVUTIL_ASSERT (lock2.count ≥ 0) (lock2, w1) <|
      Outcome.ok () (lock2, w1)
  else
    let lock2 : debug_lock := { lock with count := int_decr lock.count }
    EVUTIL_ASSERT (lock2.count ≥ 0) (lock2, w) <|
    Outcome.ok () (lock2, w)

/-- Lines 260-271. -/
def debug_lock_unlock (K : Env W) (g : ProcessLockState) (mode : Nat)
    (lock : debug_lock) (w : W) : Outcome (debug_lock × W) Int :=
  match evthread_debug_lock_mark_unlocked K g mode lock w with
  | Outcome.fatal st => Outcome.fatal st
  | Outcome.ok _ (lock1, w1) =>
    if g._original_lock_fns.unlock ≠ FnPtr.NULL then
      match K.call_lockop g._original_lock_fns.unlock mode lock1.lock w1 with
      | Outcome.fatal w2 => Outcome.fatal (lock1, w2)
      | Outcome.ok res w2 => Outcome.ok res (lock1, w2)
    else Outcome.ok 0 (lock1, w1)

/-- Lines 318-330. -/
def _evthread_is_debug_lock_held (K : Env W) (g : ProcessLockState)
    (lock : debug_lock) (w : W) : Outcome W Int :=
  if lock.count = 0 then Outcome.ok 0 w
  else if g._evthread_id_fn ≠ FnPtr.NULL then
    match K.call_id g._evthread_id_fn w with
    | Outcome.fatal w1 => Outcome.fatal w1
    | Outcome.ok me w1 => if lock.held_by ≠ me then Outcome.ok 0 w1 else Outcome.ok 1 w1
  else Outcome.ok 1 w

/-- Lines 332-337. -/
def _evthread_debug_get_real_lock (lock : debug_lock) : Ptr :=
  lock.lock

/-- Modelled from the spec: the macro `EVLOCK_ASSERT_LOCKED` comes from
evthread-internal.h, which is not among the sources at hand. Of
condition_wait the spec says it `asserts the lock is currently held`: the
macro asserts that `_evthread_is_debug_lock_held` returns non-zero on the
lock, then `rest` runs in the world that call left. -/
def EVLOCK_ASSERT_LOCKED {α : Type} (K : Env W) (g : ProcessLockState)
    (lock : debug_lock) (w : W) (rest : W → Outcome (debug_lock × W) α) :
    Outcome (debug_lock × W) α :=
  match _evthread_is_debug_lock_held K g lock w with
  | Outcome.fatal w1 => Outcome.fatal (lock, w1)
  | Outcome.ok held w1 => EVUTIL_ASSERT (held ≠ 0) (lock, w1) (rest w1)

/-- Lines 278-280 of `debug_cond_wait`: what the function has done when it
reaches the call of the real `wait_condition`. The assertion of line 278 holds
because the lock is passed as a record. -/
def debug_cond_wait_release (K : Env W) (g : ProcessLockState) (lock : debug_lock)
    (w : W) : Outcome (debug_lock × W) Unit :=
  EVLOCK_ASSERT_LOCKED K g lock w fun w1 =>
    evthread_debug_lock_mark_unlocked K g 0 lock w1

/-- Lines 273-284. The record is touched by this thread only: what other
threads do to the lock while the real wait has released it is not modelled. -/
def debug_cond_wait (K : Env W) (g : ProcessLockState) (_cond : Ptr)
    (lock : debug_lock) (tv : Timeval) (w : W) : Outcome (debug_lock × W) Int :=
  match debug_cond_wait_release K g lock w with
  | Outcome.fatal st => Outcome.fatal st
  | Outcome.ok _ (lock1, w1) =>
    match K.call_wait g._original_cond_fns.wait_condition _cond lock1.lock tv w1 with
    | Outcome.fatal w2 => Outcome.fatal (lock1, w2)
    | Outcome.ok r w2 =>
      match evthread_debug_lock_mark_locked K g 0 lock1 w2 with
      | Outcome.fatal st => Outcome.fatal st
      | Outcome.ok _ st => Outcome.ok r st

end Debug

/-! ## Sequences of calls on one debug lock -/

/-- A call of one of the three debug operations that change the bookkeeping
of a lock. -/
inductive DebugOp where
  | lock (mode : Nat)
  | unlock (mode : Nat)
  | cond_wait (cond : Ptr) (tv : Timeval)
deriving DecidableEq, Repr

section Calls
variable {W : Type}

/-- One call: `debug_lock_lock`, `debug_lock_unlock` or `debug_cond_wait`. -/
def run_op (K : Env W) (g : ProcessLockState) (op : DebugOp) (lock : debug_lock)
    (w : W) : Outcome (debug_lock × W) Int :=
  match op with
  | DebugOp.lock mode => debug_lock_lock K g mode lock w
  | DebugOp.unlock mode => debug_lock_unlock K g mode lock w
  | DebugOp.cond_wait cond tv => debug_cond_wait K g cond lock tv w

/-- Consecutive calls on one lock by one thread: each call starts from the
record and the world the call before it left; a fatal assertion ends the
run. -/
def run_ops (K : Env W) (g : ProcessLockState) :
    List DebugOp → debug_lock → W → Outcome (debug_lock × W) Unit
  | [], lock, w => Outcome.ok () (lock, w)
  | op :: rest, lock, w =>
    match run_op K g op lock w with
    | Outcome.fatal st => Outcome.fatal st
    | Outcome.ok _ (lock1, w1) => run_ops K g rest lock1 w1

/-- The records a debug lock can hold after a finite sequence of
`debug_lock_lock`, `debug_lock_unlock` and `debug_cond_wait` calls, starting
from the record `l0`, none of which ended in a fatal assertion. Each call may
find the globals and the world in any state. -/
inductive LockReachable (K : Env W) (l0 : debug_lock) : debug_lock → Prop where
  | start : LockReachable K l0 l0
  | step (l l1 : debug_lock) (g : ProcessLockState) (op : DebugOp) (w w1 : W) (r : Int) :
      LockReachable K l0 l → run_op K g op l w = Outcome.ok r (l1, w1) →
      LockReachable K l0 l1

end Calls

/-! ## Global lock orchestrator (lines 339-392) -/

/-- A `void *` that stands for a lock: a handle of the application
(`real 0` is `NULL`), or a pointer to a `struct debug_lock`, given as the
record it points to. -/
inductive LockHandle where
  | real (h : Ptr)
  | debug (l : debug_lock)
deriving DecidableEq, Repr

section Orchestrator
variable {W : Type}

/-- The `void *` that `debug_lock_alloc` returns, as a `LockHandle`. -/
def debug_lock_alloc_handle (K : Env W) (g : ProcessLockState) (mm_malloc_ok : Bool)
    (locktype : Nat) (w : W) : Outcome W LockHandle :=
  match debug_lock_alloc K g mm_malloc_ok locktype w with
  | Outcome.fatal w1 => Outcome.fatal w1
  | Outcome.ok none w1 => Outcome.ok (LockHandle.real 0) w1
  | Outcome.ok (some l) w1 => Outcome.ok (LockHandle.debug l) w1

/-- Lines 339-392. `mm_malloc_ok` tells whether `mm_malloc` hands out memory.
The result is `none` where the C code reads its argument at a type it does
not have (case 2 given a debug lock, case 4 given anything else): such calls
are not modelled. -/
def evthread_setup_global_lock_ (K : Env W) (g : ProcessLockState)
    (mm_malloc_ok : Bool) (lock_ : LockHandle) (locktype : Nat) (enable_locks : Int)
    (w : W) : Option (Outcome W LockHandle) :=
  if enable_locks = 0 ∧ g._original_lock_fns.alloc = FnPtr.NULL then
    some (EVUTIL_ASSERT (lock_ = LockHandle.real 0) w <|
      debug_lock_alloc_handle K g mm_malloc_ok locktype w)
  else if enable_locks = 0 ∧ g._original_lock_fns.alloc ≠ FnPtr.NULL then
    match lock_ with
    | LockHandle.debug _ => none
    | LockHandle.real h =>
      some (EVUTIL_ASSERT (h ≠ 0) w <|
        if locktype &&& K.EVTHREAD_LOCKTYPE_RECURSIVE = 0 then
          match K.call_free g._original_lock_fns.free h locktype w with
          | Outcome.fatal w1 => Outcome.fatal w1
          | Outcome.ok _ w1 => debug_lock_alloc_handle K g mm_malloc_ok locktype w1
        else if mm_malloc_ok = false then
          match K.call_free g._original_lock_fns.free h locktype w with
          | Outcome.fatal w1 => Outcome.fatal w1
          | Outcome.ok _ w1 => Outcome.ok (LockHandle.real 0) w1
        else
          Outcome.ok (LockHandle.debug
            { locktype := locktype, held_by := 0, count := 0, lock := h }) w)
  else if enable_locks ≠ 0 ∧ g._evthread_lock_debugging_enabled = 0 then
    some (EVUTIL_ASSERT (lock_ = LockHandle.real 0) w <|
      match K.call_alloc g._evthread_lock_fns.alloc locktype w with
      | Outcome.fatal w1 => Outcome.fatal w1
      | Outcome.ok h w1 => Outcome.ok (LockHandle.real h) w1)
  else
    match lock_ with
    | LockHandle.real _ => none
    | LockHandle.debug l =>
      some (EVUTIL_ASSERT (enable_locks ≠ 0 ∧ g._evthread_lock_debugging_enabled ≠ 0) w <|
        EVUTIL_ASSERT (l.locktype = locktype) w <|
        EVUTIL_ASSERT (l.lock = 0) w <|
        match K.call_alloc g._original_lock_fns.alloc
            (locktype ||| K.EVTHREAD_LOCKTYPE_RECURSIVE) w with
        | Outcome.fatal w1 => Outcome.fatal w1
        | Outcome.ok h w1 =>
          if h = 0 then Outcome.ok (LockHandle.real 0) w1
          else Outcome.ok (LockHandle.debug { l with lock := h }) w1)

end Orchestrator

/-! ## Concrete inputs -/

/-- The values event2/thread.h of libevent 2.0 gives the constants; used to
evaluate the functions at concrete inputs. -/
def libevent_thread_h : ThreadH :=
  { EVTHREAD_WRITE := 4, EVTHREAD_READ := 8, EVTHREAD_LOCK_API_VERSION := 1,
    EVTHREAD_LOCKTYPE_RECURSIVE := 1, EVTHREAD_LOCKTYPE_READWRITE := 2 }

/-- A complete lock callback set of an application. -/
def lock_fns_A : evthread_lock_callbacks :=
  { lock_api_version := 1, supported_locktypes := 1, alloc := FnPtr.app 1,
    free := FnPtr.app 2, lock := FnPtr.app 3, unlock := FnPtr.app 4 }

/-- A complete lock callback set that differs from `lock_fns_A` in `unlock`. -/
def lock_fns_B : evthread_lock_callbacks :=
  { lock_fns_A with unlock := FnPtr.app 5 }

/-- A lock callback set without `free`. -/
def lock_fns_incomplete : evthread_lock_callbacks :=
  { lock_fns_A with free := FnPtr.NULL }

/-- A complete condition callback set of an application. -/
def cond_fns_C : evthread_condition_callbacks :=
  { condition_api_version := 1, alloc_condition := FnPtr.app 11,
    free_condition := FnPtr.app 12, signal_condition := FnPtr.app 13,
    wait_condition := FnPtr.app 14 }

/-- A complete condition callback set that differs from `cond_fns_C` in
`wait_condition`. -/
def cond_fns_D : evthread_condition_callbacks :=
  { cond_fns_C with wait_condition := FnPtr.app 15 }

/-- A condition callback set without `wait_condition`. -/
def cond_fns_incomplete : evthread_condition_callbacks :=
  { cond_fns_C with wait_condition := FnPtr.NULL }

/-- The value `res` holds at line 235 of `debug_lock_lock` and the world the
real lock function, if one is installed, has left (lines 227, 232-233). -/
def real_lock_result {W : Type} (K : Env W) (g : ProcessLockState) (mode : Nat)
    (handle : Ptr) (w : W) : Outcome W Int :=
  if g._original_lock_fns.lock ≠ FnPtr.NULL then
    K.call_lockop g._original_lock_fns.lock mode handle w
  else Outcome.ok 0 w

/-- The application world of the scenario of the spec: the counters its four
lock callbacks keep. -/
structure Counters where
  allocated : Int
  locked : Int
deriving DecidableEq, Repr

/-- The application code of the scenario of the spec, for the callback table
`lock_fns_A`: the function at `app 1` (alloc) counts up `allocated` and hands
out `handle`, the one at `app 2` (free) counts it down, the one at `app 3`
(lock) counts up `locked` and returns 0, the one at `app 4` (unlock) counts it
down and returns 0. A call of a wait function through `NULL` does not return:
the process stops. Every other call does nothing and returns 0. -/
def counting_env (handle : Ptr) : Env Counters :=
  { toThreadH := libevent_thread_h
    call_id := fun _ w => Outcome.ok 0 w
    call_alloc := fun p _ w =>
      if p = FnPtr.app 1 then Outcome.ok handle { w with allocated := w.allocated + 1 }
      else Outcome.ok 0 w
    call_free := fun p _ _ w =>
      if p = FnPtr.app 2 then Outcome.ok () { w with allocated := w.allocated - 1 }
      else Outcome.ok () w
    call_lockop := fun p _ _ w =>
      if p = FnPtr.app 3 then Outcome.ok 0 { w with locked := w.locked + 1 }
      else if p = FnPtr.app 4 then Outcome.ok 0 { w with locked := w.locked - 1 }
      else Outcome.ok 0 w
    call_cond_free := fun _ _ w => Outcome.ok () w
    call_signal := fun _ _ _ w => Outcome.ok 0 w
    call_wait := fun p _ _ _ w =>
      if p = FnPtr.NULL then Outcome.fatal w else Outcome.ok 0 w }

/-- The globals in the scenario of the spec: `lock_fns_A` installed from the
initial state, then debugging enabled. -/
def scenario_state : ProcessLockState :=
  (evthread_enable_lock_debuging libevent_thread_h
    (evthread_set_lock_callbacks 0 initial_state (some lock_fns_A)).state).state

/-- A value of the state record that no run of the program produces: the
active lock table holds an alloc function and no free function. -/
def half_filled_state : ProcessLockState :=
  { initial_state with _evthread_lock_fns := lock_fns_incomplete }

/-- The application code of `counting_env` with an identity function that
returns `me` on every call. -/
def thread_env (me : Nat) (handle : Ptr) : Env Counters :=
  { counting_env handle with call_id := fun _ w => Outcome.ok me w }

/-- The globals of `scenario_state` with an identity function installed. -/
def scenario_state_id : ProcessLockState :=
  evthread_set_id_callback scenario_state (FnPtr.app 9)

/-- The globals of the scenario with a condition set as well: `lock_fns_A` and
`cond_fns_C` installed from the initial state, then debugging enabled, then an
identity function installed. The original condition set is `cond_fns_C`, so
the real wait function is the one at `app 14`. -/
def scenario_state_cond : ProcessLockState :=
  evthread_set_id_callback
    (evthread_enable_lock_debuging libevent_thread_h
      (evthread_set_condition_callbacks
        (evthread_set_lock_callbacks 0 initial_state (some lock_fns_A)).state
        (some cond_fns_C)).state).state
    (FnPtr.app 9)

/-- The application code of `counting_env 7` with lock functions that refuse:
every call at the type of lock and unlock returns 1 and does nothing. -/
def refusing_env : Env Counters :=
  { counting_env 7 with call_lockop := fun _ _ _ w => Outcome.ok 1 w }

/-! ## Properties of the callback registry -/

/-- Every lock callback table of a state is empty or complete. -/
def tables_complete (s : ProcessLockState) : Prop :=
  (s._evthread_lock_fns.alloc ≠ FnPtr.NULL →
    s._evthread_lock_fns.free ≠ FnPtr.NULL ∧ s._evthread_lock_fns.lock ≠ FnPtr.NULL ∧
    s._evthread_lock_fns.unlock ≠ FnPtr.NULL) ∧
  (s._original_lock_fns.alloc ≠ FnPtr.NULL →
    s._original_lock_fns.free ≠ FnPtr.NULL ∧ s._original_lock_fns.lock ≠ FnPtr.NULL ∧
    s._original_lock_fns.unlock ≠ FnPtr.NULL)

theorem tables_complete_set_lock (st : Int) (s : ProcessLockState)
    (cbs : Option evthread_lock_callbacks) (h : tables_complete s) :
    tables_complete (evthread_set_lock_callbacks st s cbs).state := by
  obtain ⟨h1, h2⟩ := h
  unfold evthread_set_lock_callbacks
  cases cbs with
  | none =>
    by_cases hd : s._evthread_lock_debugging_enabled = 0
    · simp [set_lock_target, hd, tables_complete, zero_lock_fns]
      exact h2
    · simp [set_lock_target, hd, tables_complete, zero_lock_fns]
      exact h1
  | some c =>
    simp only
    split
    · split <;> exact ⟨h1, h2⟩
    · split
      · rename_i hc
        by_cases hd : s._evthread_lock_debugging_enabled = 0
        · simp [set_lock_target, hd, tables_complete]
          exact ⟨fun _ => ⟨hc.2.1, hc.2.2.1, hc.2.2.2⟩, h2⟩
        · simp [set_lock_target, hd, tables_complete]
          exact ⟨h1, fun _ => ⟨hc.2.1, hc.2.2.1, hc.2.2.2⟩⟩
      · exact ⟨h1, h2⟩

theorem tables_complete_set_cond (s : ProcessLockState)
    (cbs : Option evthread_condition_callbacks) (h : tables_complete s) :
    tables_complete (evthread_set_condition_callbacks s cbs).state := by
  unfold evthread_set_condition_callbacks
  cases cbs with
  | none =>
    simp only [set_cond_target]
    split <;> exact h
  | some c =>
    simp only [set_cond_target, patch_active_cond]
    repeat' split
    all_goals exact h

theorem tables_complete_enable (H : ThreadH) (s : ProcessLockState)
    (h : tables_complete s) :
    tables_complete (evthread_enable_lock_debuging H s).state := by
  unfold evthread_enable_lock_debuging
  split
  · exact h
  · exact ⟨by simp [debug_lock_fns], h.1⟩

/-- In every state the process can be in, each lock callback table is empty
or complete. -/
theorem reachable_tables_complete (H : ThreadH) (s : ProcessLockState)
    (h : Reachable H s) : tables_complete s := by
  induction h with
  | init => simp [tables_complete, initial_state, zero_lock_fns]
  | set_id s f _ ih => exact ih
  | set_lock s st cbs _ ih => exact tables_complete_set_lock st s cbs ih
  | set_cond s cbs _ ih => exact tables_complete_set_cond s cbs ih
  | enable s _ ih => exact tables_complete_enable H s ih

theorem lock_target_complete (s : ProcessLockState) (h : tables_complete s)
    (ha : (lock_target s).alloc ≠ FnPtr.NULL) :
    (lock_target s).free ≠ FnPtr.NULL ∧ (lock_target s).lock ≠ FnPtr.NULL ∧
    (lock_target s).unlock ≠ FnPtr.NULL := by
  unfold lock_target at ha ⊢
  split at ha
  · rename_i hd; rw [if_pos hd]; exact h.2 ha
  · rename_i hd; rw [if_neg hd]; exact h.1 ha

/-- C1. When the registration target holds a complete lock callback set `A`,
passing a non-null set `B` that differs from `A` in the api version, the
supported locktypes, alloc, free, lock or unlock makes
`evthread_set_lock_callbacks` return -1, and the target (indeed the whole
state) is what it was before the call. -/
theorem set_lock_callbacks_rejects_change (setup_status : Int) (s : ProcessLockState)
    (A B : evthread_lock_callbacks)
    (hA : lock_target s = A)
    (hcomplete : A.alloc ≠ FnPtr.NULL ∧ A.free ≠ FnPtr.NULL ∧ A.lock ≠ FnPtr.NULL ∧
      A.unlock ≠ FnPtr.NULL)
    (hdiff : B.lock_api_version ≠ A.lock_api_version ∨
      B.supported_locktypes ≠ A.supported_locktypes ∨ B.alloc ≠ A.alloc ∨
      B.free ≠ A.free ∨ B.lock ≠ A.lock ∨ B.unlock ≠ A.unlock) :
    (evthread_set_lock_callbacks setup_status s (some B)).status = -1 ∧
    lock_target (evthread_set_lock_callbacks setup_status s (some B)).state = A ∧
    (evthread_set_lock_callbacks setup_status s (some B)).state = s := by
  subst hA
  have hne : ¬ ((lock_target s).lock_api_version = B.lock_api_version ∧
      (lock_target s).supported_locktypes = B.supported_locktypes ∧
      (lock_target s).alloc = B.alloc ∧ (lock_target s).free = B.free ∧
      (lock_target s).lock = B.lock ∧ (lock_target s).unlock = B.unlock) := by
    rintro ⟨h1, h2, h3, h4, h5, h6⟩
    rcases hdiff with h | h | h | h | h | h
    · exact h h1.symm
    · exact h h2.symm
    · exact h h3.symm
    · exact h h4.symm
    · exact h h5.symm
    · exact h h6.symm
  unfold evthread_set_lock_callbacks
  simp only [if_pos hcomplete.1, if_neg hne]
  exact ⟨trivial, trivial, trivial⟩

/-- C1 at a concrete input: `lock_fns_A` installed from the initial state,
then `lock_fns_B`. -/
theorem set_lock_callbacks_rejects_change_witness :
    (evthread_set_lock_callbacks 0
        (evthread_set_lock_callbacks 0 initial_state (some lock_fns_A)).state
        (some lock_fns_B)).status = -1 ∧
    lock_target (evthread_set_lock_callbacks 0
        (evthread_set_lock_callbacks 0 initial_state (some lock_fns_A)).state
        (some lock_fns_B)).state = lock_fns_A ∧
    (evthread_set_lock_callbacks 0
        (evthread_set_lock_callbacks 0 initial_state (some lock_fns_A)).state
        (some lock_fns_B)).state =
      (evthread_set_lock_callbacks 0 initial_state (some lock_fns_A)).state :=
  set_lock_callbacks_rejects_change 0
    (evthread_set_lock_callbacks 0 initial_state (some lock_fns_A)).state
    lock_fns_A lock_fns_B (by decide) (by decide) (by decide)

/-- C2. In every state the process can be in, passing a non-null lock
callback set in which one of alloc, free, lock, unlock is null makes
`evthread_set_lock_callbacks` return -1 and leaves every global as it was. -/
theorem set_lock_callbacks_rejects_incomplete (H : ThreadH) (setup_status : Int)
    (s : ProcessLockState) (c : evthread_lock_callbacks)
    (hs : Reachable H s)
    (hinc : c.alloc = FnPtr.NULL ∨ c.free = FnPtr.NULL ∨ c.lock = FnPtr.NULL ∨
      c.unlock = FnPtr.NULL) :
    (evthread_set_lock_callbacks setup_status s (some c)).status = -1 ∧
    (evthread_set_lock_callbacks setup_status s (some c)).state = s := by
  have hinv := reachable_tables_complete H s hs
  have hnc : ¬ (c.alloc ≠ FnPtr.NULL ∧ c.free ≠ FnPtr.NULL ∧ c.lock ≠ FnPtr.NULL ∧
      c.unlock ≠ FnPtr.NULL) := by
    rintro ⟨h1, h2, h3, h4⟩
    rcases hinc with h | h | h | h
    · exact h1 h
    · exact h2 h
    · exact h3 h
    · exact h4 h
  unfold evthread_set_lock_callbacks
  by_cases ha : (lock_target s).alloc ≠ FnPtr.NULL
  · have hfull := lock_target_complete s hinv ha
    have hne : ¬ ((lock_target s).lock_api_version = c.lock_api_version ∧
        (lock_target s).supported_locktypes = c.supported_locktypes ∧
        (lock_target s).alloc = c.alloc ∧ (lock_target s).free = c.free ∧
        (lock_target s).lock = c.lock ∧ (lock_target s).unlock = c.unlock) := by
      rintro ⟨_, _, h3, h4, h5, h6⟩
      exact hnc ⟨h3 ▸ ha, h4 ▸ hfull.1, h5 ▸ hfull.2.1, h6 ▸ hfull.2.2⟩
    simp only [if_pos ha, if_neg hne]
    exact ⟨trivial, trivial⟩
  · simp only [if_neg ha, if_neg hnc]
    exact ⟨trivial, trivial⟩

/-- C2 at a concrete input: a set without `free`, passed in the initial
state. -/
theorem set_lock_callbacks_rejects_incomplete_witness :
    (evthread_set_lock_callbacks 0 initial_state (some lock_fns_incomplete)).status = -1 ∧
    (evthread_set_lock_callbacks 0 initial_state (some lock_fns_incomplete)).state =
      initial_state :=
  set_lock_callbacks_rejects_incomplete libevent_thread_h 0 initial_state lock_fns_incomplete
    Reachable.init (by decide)

/-- Why C2 speaks of the states the process can be in: on the record value
`half_filled_state`, which no run produces, passing the identical incomplete
set returns 0. -/
theorem half_filled_state_unreachable (H : ThreadH) :
    ¬ Reachable H half_filled_state ∧
    (evthread_set_lock_callbacks 0 half_filled_state (some lock_fns_incomplete)).status = 0 := by
  constructor
  · intro h
    have := (reachable_tables_complete H half_filled_state h).1 (by decide)
    exact absurd this.1 (by decide)
  · decide

theorem lock_target_set_lock_target (s : ProcessLockState) (v : evthread_lock_callbacks) :
    lock_target (set_lock_target s v) = v := by
  unfold lock_target set_lock_target
  by_cases hd : s._evthread_lock_debugging_enabled ≠ 0
  · simp only [if_pos hd]
  · simp only [if_neg hd]

theorem cond_target_set_cond_target (s : ProcessLockState)
    (v : evthread_condition_callbacks) :
    cond_target (set_cond_target s v) = v := by
  unfold cond_target set_cond_target
  by_cases hd : s._evthread_lock_debugging_enabled ≠ 0
  · simp only [if_pos hd]
  · simp only [if_neg hd]

theorem cond_target_patch_active_cond (s : ProcessLockState)
    (v c : evthread_condition_callbacks) :
    cond_target (patch_active_cond (set_cond_target s v) c) = v := by
  unfold cond_target patch_active_cond set_cond_target
  by_cases hd : s._evthread_lock_debugging_enabled ≠ 0
  · simp only [if_pos hd]
  · simp only [if_neg hd]

/-- C3. Installing the same complete set twice in a row is idempotent. For a
complete lock callback set `A` and a state whose registration target is empty,
with `event_global_setup_locks_(1)` reporting success in the first call, both
calls of `evthread_set_lock_callbacks` return 0 and the second leaves the
state the first produced. For a complete condition callback set `C` and a
state whose registration target is empty, both calls of
`evthread_set_condition_callbacks` return 0 and the second leaves the state
the first produced. -/
theorem install_twice_idempotent :
    (∀ (setup_status2 : Int) (s : ProcessLockState) (A : evthread_lock_callbacks),
      A.alloc ≠ FnPtr.NULL ∧ A.free ≠ FnPtr.NULL ∧ A.lock ≠ FnPtr.NULL ∧
        A.unlock ≠ FnPtr.NULL →
      (lock_target s).alloc = FnPtr.NULL →
      (evthread_set_lock_callbacks 0 s (some A)).status = 0 ∧
      (evthread_set_lock_callbacks setup_status2
        (evthread_set_lock_callbacks 0 s (some A)).state (some A)).status = 0 ∧
      (evthread_set_lock_callbacks setup_status2
        (evthread_set_lock_callbacks 0 s (some A)).state (some A)).state =
        (evthread_set_lock_callbacks 0 s (some A)).state) ∧
    (∀ (s : ProcessLockState) (C : evthread_condition_callbacks),
      C.alloc_condition ≠ FnPtr.NULL ∧ C.free_condition ≠ FnPtr.NULL ∧
        C.signal_condition ≠ FnPtr.NULL ∧ C.wait_condition ≠ FnPtr.NULL →
      (cond_target s).alloc_condition = FnPtr.NULL →
      (evthread_set_condition_callbacks s (some C)).status = 0 ∧
      (evthread_set_condition_callbacks
        (evthread_set_condition_callbacks s (some C)).state (some C)).status = 0 ∧
      (evthread_set_condition_callbacks
        (evthread_set_condition_callbacks s (some C)).state (some C)).state =
        (evthread_set_condition_callbacks s (some C)).state) := by
  constructor
  · intro st2 s A hA hempty
    have h1 : evthread_set_lock_callbacks 0 s (some A) =
        { status := 0, state := set_lock_target s A,
          trace := [Event.event_global_setup_locks_ 1] } := by
      unfold evthread_set_lock_callbacks
      simp only [hempty, ne_eq, not_true_eq_false, if_false]
      rw [if_pos hA]
    rw [h1]
    simp only [true_and]
    unfold evthread_set_lock_callbacks
    simp only [lock_target_set_lock_target]
    simp [hA.1]
  · intro s C hC hempty
    have h1 : evthread_set_condition_callbacks s (some C) =
        { status := 0, state := patch_active_cond (set_cond_target s C) C,
          trace := [] } := by
      unfold evthread_set_condition_callbacks
      simp only [hempty, ne_eq, not_true_eq_false, if_false]
      rw [if_pos hC]
    rw [h1]
    simp only [true_and]
    unfold evthread_set_condition_callbacks
    simp only [cond_target_patch_active_cond]
    simp [hC.1]

/-- C3 at concrete inputs: `lock_fns_A` and `cond_fns_C`, each installed
twice from the initial state. -/
theorem install_twice_idempotent_witness :
    ((evthread_set_lock_callbacks 0 initial_state (some lock_fns_A)).status = 0 ∧
      (evthread_set_lock_callbacks (-1)
        (evthread_set_lock_callbacks 0 initial_state (some lock_fns_A)).state
        (some lock_fns_A)).status = 0 ∧
      (evthread_set_lock_callbacks (-1)
        (evthread_set_lock_callbacks 0 initial_state (some lock_fns_A)).state
        (some lock_fns_A)).state =
        (evthread_set_lock_callbacks 0 initial_state (some lock_fns_A)).state) ∧
    ((evthread_set_condition_callbacks initial_state (some cond_fns_C)).status = 0 ∧
      (evthread_set_condition_callbacks
        (evthread_set_condition_callbacks initial_state (some cond_fns_C)).state
        (some cond_fns_C)).status = 0 ∧
      (evthread_set_condition_callbacks
        (evthread_set_condition_callbacks initial_state (some cond_fns_C)).state
        (some cond_fns_C)).state =
        (evthread_set_condition_callbacks initial_state (some cond_fns_C)).state) :=
  ⟨install_twice_idempotent.1 (-1) initial_state lock_fns_A (by decide) (by decide),
   install_twice_idempotent.2 initial_state cond_fns_C (by decide) (by decide)⟩

/-- C4 as stated fails: from the initial state, a complete set is copied into
the target before `event_global_setup_locks_(1)` runs, so when that step
reports -1 the call returns -1 and the state is not the state before the
call. -/
theorem set_lock_callbacks_failure_not_atomic :
    (evthread_set_lock_callbacks (-1) initial_state (some lock_fns_A)).status = -1 ∧
    (evthread_set_lock_callbacks (-1) initial_state (some lock_fns_A)).state ≠
      initial_state ∧
    (evthread_set_lock_callbacks (-1) initial_state
      (some lock_fns_A)).state._evthread_lock_fns = lock_fns_A := by
  decide

/-- C4, amended. Whenever `evthread_set_lock_callbacks` returns a non-zero
status, either the state is exactly the state before the call and the
orchestration step was not run, or the argument is a complete set accepted
into an empty target: then the status is the one `event_global_setup_locks_(1)`
returned and the accepted set stays installed in the target. -/
theorem set_lock_callbacks_failure_cases (setup_status : Int) (s : ProcessLockState)
    (cbs : Option evthread_lock_callbacks)
    (hfail : (evthread_set_lock_callbacks setup_status s cbs).status ≠ 0) :
    ((evthread_set_lock_callbacks setup_status s cbs).state = s ∧
      Event.event_global_setup_locks_ 1 ∉
        (evthread_set_lock_callbacks setup_status s cbs).trace) ∨
    (∃ c, cbs = some c ∧
      (c.alloc ≠ FnPtr.NULL ∧ c.free ≠ FnPtr.NULL ∧ c.lock ≠ FnPtr.NULL ∧
        c.unlock ≠ FnPtr.NULL) ∧
      (lock_target s).alloc = FnPtr.NULL ∧
      (evthread_set_lock_callbacks setup_status s cbs).status = setup_status ∧
      (evthread_set_lock_callbacks setup_status s cbs).trace =
        [Event.event_global_setup_locks_ 1] ∧
      (evthread_set_lock_callbacks setup_status s cbs).state = set_lock_target s c ∧
      lock_target (evthread_set_lock_callbacks setup_status s cbs).state = c) := by
  cases cbs with
  | none => exact absurd rfl hfail
  | some c =>
    unfold evthread_set_lock_callbacks at hfail ⊢
    by_cases ha : (lock_target s).alloc ≠ FnPtr.NULL
    · simp only [if_pos ha] at hfail ⊢
      left
      split <;> simp
    · simp only [if_neg ha] at hfail ⊢
      by_cases hc : c.alloc ≠ FnPtr.NULL ∧ c.free ≠ FnPtr.NULL ∧ c.lock ≠ FnPtr.NULL ∧
          c.unlock ≠ FnPtr.NULL
      · right
        rw [if_pos hc]
        exact ⟨c, rfl, hc, not_not.mp ha, rfl, rfl, rfl, lock_target_set_lock_target s c⟩
      · left
        simp only [if_neg hc]
        simp

/-- C4, amended, at a concrete input: a differing set passed after
`lock_fns_A` is installed. -/
theorem set_lock_callbacks_failure_cases_witness :
    ((evthread_set_lock_callbacks 0
        (evthread_set_lock_callbacks 0 initial_state (some lock_fns_A)).state
        (some lock_fns_B)).state =
        (evthread_set_lock_callbacks 0 initial_state (some lock_fns_A)).state ∧
      Event.event_global_setup_locks_ 1 ∉
        (evthread_set_lock_callbacks 0
          (evthread_set_lock_callbacks 0 initial_state (some lock_fns_A)).state
          (some lock_fns_B)).trace) ∨
    (∃ c, some lock_fns_B = some c ∧
      (c.alloc ≠ FnPtr.NULL ∧ c.free ≠ FnPtr.NULL ∧ c.lock ≠ FnPtr.NULL ∧
        c.unlock ≠ FnPtr.NULL) ∧
      (lock_target
        (evthread_set_lock_callbacks 0 initial_state (some lock_fns_A)).state).alloc =
        FnPtr.NULL ∧
      (evthread_set_lock_callbacks 0
        (evthread_set_lock_callbacks 0 initial_state (some lock_fns_A)).state
        (some lock_fns_B)).status = 0 ∧
      (evthread_set_lock_callbacks 0
        (evthread_set_lock_callbacks 0 initial_state (some lock_fns_A)).state
        (some lock_fns_B)).trace = [Event.event_global_setup_locks_ 1] ∧
      (evthread_set_lock_callbacks 0
        (evthread_set_lock_callbacks 0 initial_state (some lock_fns_A)).state
        (some lock_fns_B)).state =
        set_lock_target
          (evthread_set_lock_callbacks 0 initial_state (some lock_fns_A)).state c ∧
      lock_target (evthread_set_lock_callbacks 0
        (evthread_set_lock_callbacks 0 initial_state (some lock_fns_A)).state
        (some lock_fns_B)).state = c) :=
  set_lock_callbacks_failure_cases 0
    (evthread_set_lock_callbacks 0 initial_state (some lock_fns_A)).state
    (some lock_fns_B) (by decide)

/-- C5 as stated fails: once `cond_fns_C` is installed, passing the differing
set `cond_fns_D` makes `evthread_set_condition_callbacks` return -1. -/
theorem set_condition_callbacks_can_fail :
    (evthread_set_condition_callbacks
      (evthread_set_condition_callbacks initial_state (some cond_fns_C)).state
      (some cond_fns_D)).status = -1 := by
  decide

/-- C5, amended. `evthread_set_condition_callbacks` returns 0 or -1, and it
returns -1 exactly when the argument is non-null, the registration target
already holds a set (its alloc_condition is non-null) and the argument differs
from that set; for a null set, and for every set, complete or not, passed
while the target is empty, it returns 0. -/
theorem set_condition_callbacks_status (s : ProcessLockState)
    (cbs : Option evthread_condition_callbacks) :
    ((evthread_set_condition_callbacks s cbs).status = 0 ∨
      (evthread_set_condition_callbacks s cbs).status = -1) ∧
    ((evthread_set_condition_callbacks s cbs).status = -1 ↔
      ∃ c, cbs = some c ∧ (cond_target s).alloc_condition ≠ FnPtr.NULL ∧
        c ≠ cond_target s) ∧
    (evthread_set_condition_callbacks s none).status = 0 ∧
    (∀ c, (cond_target s).alloc_condition = FnPtr.NULL →
      (evthread_set_condition_callbacks s (some c)).status = 0) := by
  refine ⟨?_, ?_, rfl, ?_⟩
  · cases cbs with
    | none => exact Or.inl rfl
    | some c =>
      unfold evthread_set_condition_callbacks
      simp only
      split
      · split
        · exact Or.inl rfl
        · exact Or.inr rfl
      · exact Or.inl rfl
  · cases cbs with
    | none =>
      constructor
      · intro h; exact absurd (show (0 : Int) = -1 from h) (by decide)
      · rintro ⟨c, hc, _⟩; exact absurd hc (by simp)
    | some c =>
      unfold evthread_set_condition_callbacks
      simp only
      by_cases ha : (cond_target s).alloc_condition ≠ FnPtr.NULL
      · rw [if_pos ha]
        by_cases heq : (cond_target s).condition_api_version = c.condition_api_version ∧
            (cond_target s).alloc_condition = c.alloc_condition ∧
            (cond_target s).free_condition = c.free_condition ∧
            (cond_target s).signal_condition = c.signal_condition ∧
            (cond_target s).wait_condition = c.wait_condition
        · rw [if_pos heq]
          constructor
          · intro h; exact absurd (show (0 : Int) = -1 from h) (by decide)
          · rintro ⟨c2, hc2, _, hne⟩
            cases hc2
            exfalso
            apply hne
            obtain ⟨h1, h2, h3, h4, h5⟩ := heq
            cases c
            cases hT : cond_target s
            rw [hT] at h1 h2 h3 h4 h5
            simp only at h1 h2 h3 h4 h5
            simp [h1, h2, h3, h4, h5]
        · rw [if_neg heq]
          constructor
          · intro _
            refine ⟨c, rfl, ha, ?_⟩
            intro hc
            apply heq
            rw [hc]
            exact ⟨rfl, rfl, rfl, rfl, rfl⟩
          · intro _; rfl
      · rw [if_neg ha]
        constructor
        · intro h; exact absurd (show (0 : Int) = -1 from h) (by decide)
        · rintro ⟨c2, _, ha2, _⟩; exact absurd ha2 ha
  · intro c hempty
    unfold evthread_set_condition_callbacks
    simp only [hempty, ne_eq, not_true_eq_false, if_false]

/-- C6 as stated fails: once `cond_fns_C` is installed, passing a set without
`wait_condition` makes `evthread_set_condition_callbacks` return -1, not 0. -/
theorem set_condition_callbacks_incomplete_can_fail :
    (evthread_set_condition_callbacks
      (evthread_set_condition_callbacks initial_state (some cond_fns_C)).state
      (some cond_fns_incomplete)).status = -1 := by
  decide

/-- With debugging enabled and an empty target, a set without
`wait_condition` is not copied into the target, yet lines 147-151 store its
alloc, free and signal fields into the active condition set. -/
theorem set_condition_callbacks_incomplete_patches_active :
    (evthread_set_condition_callbacks
      (evthread_enable_lock_debuging libevent_thread_h initial_state).state
      (some cond_fns_incomplete)).status = 0 ∧
    (evthread_set_condition_callbacks
      (evthread_enable_lock_debuging libevent_thread_h initial_state).state
      (some cond_fns_incomplete)).state._original_cond_fns = zero_cond_fns ∧
    (evthread_set_condition_callbacks
      (evthread_enable_lock_debuging libevent_thread_h initial_state).state
      (some cond_fns_incomplete)).state._evthread_cond_fns =
      { condition_api_version := 0, alloc_condition := FnPtr.app 11,
        free_condition := FnPtr.app 12, signal_condition := FnPtr.app 13,
        wait_condition := FnPtr.static StaticFn.debug_cond_wait } := by
  decide

/-- C6, amended. For a non-null condition callback set in which one of
alloc, free, signal, wait is null: when the registration target is empty (its
alloc_condition is null), `evthread_set_condition_callbacks` returns 0, copies
nothing into the target, leaves the original condition set as it was and, with
debugging off, leaves the whole state as it was; when the target already
holds a set, nothing changes, and the status is -1 if the argument differs
from that set. -/
theorem set_condition_callbacks_incomplete (s : ProcessLockState)
    (c : evthread_condition_callbacks)
    (hinc : c.alloc_condition = FnPtr.NULL ∨ c.free_condition = FnPtr.NULL ∨
      c.signal_condition = FnPtr.NULL ∨ c.wait_condition = FnPtr.NULL) :
    ((cond_target s).alloc_condition = FnPtr.NULL →
      (evthread_set_condition_callbacks s (some c)).status = 0 ∧
      cond_target (evthread_set_condition_callbacks s (some c)).state = cond_target s ∧
      (evthread_set_condition_callbacks s (some c)).state._original_cond_fns =
        s._original_cond_fns ∧
      (s._evthread_lock_debugging_enabled = 0 →
        (evthread_set_condition_callbacks s (some c)).state = s)) ∧
    ((cond_target s).alloc_condition ≠ FnPtr.NULL →
      (evthread_set_condition_callbacks s (some c)).state = s ∧
      (c ≠ cond_target s →
        (evthread_set_condition_callbacks s (some c)).status = -1)) := by
  have hnc : ¬ (c.alloc_condition ≠ FnPtr.NULL ∧ c.free_condition ≠ FnPtr.NULL ∧
      c.signal_condition ≠ FnPtr.NULL ∧ c.wait_condition ≠ FnPtr.NULL) := by
    rintro ⟨h1, h2, h3, h4⟩
    rcases hinc with h | h | h | h
    · exact h1 h
    · exact h2 h
    · exact h3 h
    · exact h4 h
  constructor
  · intro hempty
    have h1 : evthread_set_condition_callbacks s (some c) =
        { status := 0, state := patch_active_cond s c, trace := [] } := by
      unfold evthread_set_condition_callbacks
      simp only [hempty, ne_eq, not_true_eq_false, if_false]
      rw [if_neg hnc]
    rw [h1]
    refine ⟨rfl, ?_, ?_, ?_⟩
    · unfold cond_target patch_active_cond
      by_cases hd : s._evthread_lock_debugging_enabled ≠ 0
      · simp only [if_pos hd]
      · simp only [if_neg hd]
    · unfold patch_active_cond
      split <;> rfl
    · intro hd
      show patch_active_cond s c = s
      unfold patch_active_cond
      simp [hd]
  · intro ha
    unfold evthread_set_condition_callbacks
    simp only [if_pos ha]
    constructor
    · split <;> rfl
    · intro hne
      have heq : ¬ ((cond_target s).condition_api_version = c.condition_api_version ∧
          (cond_target s).alloc_condition = c.alloc_condition ∧
          (cond_target s).free_condition = c.free_condition ∧
          (cond_target s).signal_condition = c.signal_condition ∧
          (cond_target s).wait_condition = c.wait_condition) := by
        rintro ⟨h1, h2, h3, h4, h5⟩
        apply hne
        cases c
        cases hT : cond_target s
        rw [hT] at h1 h2 h3 h4 h5
        simp only at h1 h2 h3 h4 h5
        simp [h1, h2, h3, h4, h5]
      rw [if_neg heq]

/-- C6, amended, at a concrete input: a set without `wait_condition` passed
in the initial state. -/
theorem set_condition_callbacks_incomplete_witness :
    (evthread_set_condition_callbacks initial_state (some cond_fns_incomplete)).status = 0 ∧
    (evthread_set_condition_callbacks initial_state (some cond_fns_incomplete)).state =
      initial_state :=
  ⟨((set_condition_callbacks_incomplete initial_state cond_fns_incomplete
      (by decide)).1 (by decide)).1,
   ((set_condition_callbacks_incomplete initial_state cond_fns_incomplete
      (by decide)).1 (by decide)).2.2.2 (by decide)⟩

/-- C7. Passing the null set to `evthread_set_lock_callbacks` returns 0 in
every state, leaves the registration target with every field zero, leaves the
other lock table, both condition tables, the id function and the debugging
flag as they were, and calls `event_warnx` (once, and nothing else) exactly
when the alloc field of the target was non-null before the call. -/
theorem set_lock_callbacks_null (setup_status : Int) (s : ProcessLockState) :
    (evthread_set_lock_callbacks setup_status s none).status = 0 ∧
    lock_target (evthread_set_lock_callbacks setup_status s none).state =
      zero_lock_fns ∧
    (evthread_set_lock_callbacks setup_status s none).state._evthread_lock_debugging_enabled
      = s._evthread_lock_debugging_enabled ∧
    (evthread_set_lock_callbacks setup_status s none).state._evthread_id_fn =
      s._evthread_id_fn ∧
    (evthread_set_lock_callbacks setup_status s none).state._evthread_cond_fns =
      s._evthread_cond_fns ∧
    (evthread_set_lock_callbacks setup_status s none).state._original_cond_fns =
      s._original_cond_fns ∧
    (s._evthread_lock_debugging_enabled ≠ 0 →
      (evthread_set_lock_callbacks setup_status s none).state._evthread_lock_fns =
        s._evthread_lock_fns) ∧
    (s._evthread_lock_debugging_enabled = 0 →
      (evthread_set_lock_callbacks setup_status s none).state._original_lock_fns =
        s._original_lock_fns) ∧
    ((lock_target s).alloc ≠ FnPtr.NULL →
      (evthread_set_lock_callbacks setup_status s none).trace =
        [Event.event_warnx Warning.disable_lock_functions]) ∧
    ((lock_target s).alloc = FnPtr.NULL →
      (evthread_set_lock_callbacks setup_status s none).trace = []) := by
  unfold evthread_set_lock_callbacks
  simp only
  refine ⟨trivial, lock_target_set_lock_target s zero_lock_fns, ?_, ?_, ?_, ?_, ?_, ?_, ?_, ?_⟩
  · unfold set_lock_target; split <;> rfl
  · unfold set_lock_target; split <;> rfl
  · unfold set_lock_target; split <;> rfl
  · unfold set_lock_target; split <;> rfl
  · intro hd; unfold set_lock_target; rw [if_pos hd]
  · intro hd; unfold set_lock_target; simp [hd]
  · intro ha; rw [if_pos ha]
  · intro ha; simp [ha]

/-! ## Properties of the dispatch shim -/

/-- C8. Each dispatch shim, when the active callback it consults is null,
returns its default without running any callback (the world is the one it was
given): 1 for `_evthreadimpl_get_id`, 0 for `_evthreadimpl_lock_lock`,
`_evthreadimpl_lock_unlock`, `_evthreadimpl_cond_signal` and
`_evthreadimpl_cond_wait`, null for `_evthreadimpl_lock_alloc` and
`_evthreadimpl_cond_alloc`. When the callback is non-null the shim is exactly
the call of that callback on the same arguments. In the initial state every
shim gives its default. -/
theorem shim_defaults {W : Type} (K : Env W) (s : ProcessLockState) (w : W)
    (locktype condtype mode : Nat) (lock cond : Ptr) (broadcast : Int) (tv : Timeval) :
    ((s._evthread_id_fn = FnPtr.NULL → _evthreadimpl_get_id K s w = Outcome.ok 1 w) ∧
     (s._evthread_id_fn ≠ FnPtr.NULL →
        _evthreadimpl_get_id K s w = K.call_id s._evthread_id_fn w)) ∧
    ((s._evthread_lock_fns.lock = FnPtr.NULL →
        _evthreadimpl_lock_lock K s mode lock w = Outcome.ok 0 w) ∧
     (s._evthread_lock_fns.lock ≠ FnPtr.NULL →
        _evthreadimpl_lock_lock K s mode lock w =
          K.call_lockop s._evthread_lock_fns.lock mode lock w)) ∧
    ((s._evthread_lock_fns.unlock = FnPtr.NULL →
        _evthreadimpl_lock_unlock K s mode lock w = Outcome.ok 0 w) ∧
     (s._evthread_lock_fns.unlock ≠ FnPtr.NULL →
        _evthreadimpl_lock_unlock K s mode lock w =
          K.call_lockop s._evthread_lock_fns.unlock mode lock w)) ∧
    ((s._evthread_cond_fns.signal_condition = FnPtr.NULL →
        _evthreadimpl_cond_signal K s cond broadcast w = Outcome.ok 0 w) ∧
     (s._evthread_cond_fns.signal_condition ≠ FnPtr.NULL →
        _evthreadimpl_cond_signal K s cond broadcast w =
          K.call_signal s._evthread_cond_fns.signal_condition cond broadcast w)) ∧
    ((s._evthread_cond_fns.wait_condition = FnPtr.NULL →
        _evthreadimpl_cond_wait K s cond lock tv w = Outcome.ok 0 w) ∧
     (s._evthread_cond_fns.wait_condition ≠ FnPtr.NULL →
        _evthreadimpl_cond_wait K s cond lock tv w =
          K.call_wait s._evthread_cond_fns.wait_condition cond lock tv w)) ∧
    ((s._evthread_lock_fns.alloc = FnPtr.NULL →
        _evthreadimpl_lock_alloc K s locktype w = Outcome.ok 0 w) ∧
     (s._evthread_lock_fns.alloc ≠ FnPtr.NULL →
        _evthreadimpl_lock_alloc K s locktype w =
          K.call_alloc s._evthread_lock_fns.alloc locktype w)) ∧
    ((s._evthread_cond_fns.alloc_condition = FnPtr.NULL →
        _evthreadimpl_cond_alloc K s condtype w = Outcome.ok 0 w) ∧
     (s._evthread_cond_fns.alloc_condition ≠ FnPtr.NULL →
        _evthreadimpl_cond_alloc K s condtype w =
          K.call_alloc s._evthread_cond_fns.alloc_condition condtype w)) ∧
    (_evthreadimpl_get_id K initial_state w = Outcome.ok 1 w ∧
     _evthreadimpl_lock_lock K initial_state mode lock w = Outcome.ok 0 w ∧
     _evthreadimpl_lock_unlock K initial_state mode lock w = Outcome.ok 0 w ∧
     _evthreadimpl_cond_signal K initial_state cond broadcast w = Outcome.ok 0 w ∧
     _evthreadimpl_cond_wait K initial_state cond lock tv w = Outcome.ok 0 w ∧
     _evthreadimpl_lock_alloc K initial_state locktype w = Outcome.ok 0 w ∧
     _evthreadimpl_cond_alloc K initial_state condtype w = Outcome.ok 0 w) := by
  refine ⟨⟨?_, ?_⟩, ⟨?_, ?_⟩, ⟨?_, ?_⟩, ⟨?_, ?_⟩, ⟨?_, ?_⟩, ⟨?_, ?_⟩, ⟨?_, ?_⟩,
    rfl, rfl, rfl, rfl, rfl, rfl, rfl⟩
  · intro h; unfold _evthreadimpl_get_id; simp [h]
  · intro h; unfold _evthreadimpl_get_id; rw [if_pos h]
  · intro h; unfold _evthreadimpl_lock_lock; simp [h]
  · intro h; unfold _evthreadimpl_lock_lock; rw [if_pos h]
  · intro h; unfold _evthreadimpl_lock_unlock; simp [h]
  · intro h; unfold _evthreadimpl_lock_unlock; rw [if_pos h]
  · intro h; unfold _evthreadimpl_cond_signal; simp [h]
  · intro h; unfold _evthreadimpl_cond_signal; rw [if_pos h]
  · intro h; unfold _evthreadimpl_cond_wait; simp [h]
  · intro h; unfold _evthreadimpl_cond_wait; rw [if_pos h]
  · intro h; unfold _evthreadimpl_lock_alloc; simp [h]
  · intro h; unfold _evthreadimpl_lock_alloc; rw [if_pos h]
  · intro h; unfold _evthreadimpl_cond_alloc; simp [h]
  · intro h; unfold _evthreadimpl_cond_alloc; rw [if_pos h]

/-! ## Properties of the debug lock wrapper -/

/-- Below `INT_MAX` the increment is the addition of 1. -/
theorem int_incr_of_ne (c : Int) (h : c ≠ INT_MAX) : int_incr c = c + 1 := by
  unfold int_incr
  rw [if_neg h]

/-- The increment of 0 is 1. -/
theorem int_incr_zero : int_incr 0 = 1 := by
  decide

/-- The increment of 1 is 2. -/
theorem int_incr_one : int_incr 1 = 2 := by
  decide

/-- The decrement of 1 is 0. -/
theorem int_decr_one : int_decr 1 = 0 := by
  decide

/-- The increment gives 1 from 0 only. -/
theorem int_incr_eq_one (c : Int) (h : int_incr c = 1) : c = 0 := by
  unfold int_incr INT_MAX INT_MIN at h
  split at h <;> omega

/-- The increment gives more than 1 only from 1 or more. -/
theorem int_incr_gt_one (c : Int) (h : int_incr c > 1) : c ≥ 1 := by
  unfold int_incr INT_MAX INT_MIN at h
  split at h <;> omega

/-- The increment stays within `INT_MAX`. -/
theorem int_incr_le (c : Int) (h : c ≤ INT_MAX) : int_incr c ≤ INT_MAX := by
  unfold int_incr INT_MAX INT_MIN at *
  split <;> omega

/-- Above `INT_MIN` the decrement is the subtraction of 1. -/
theorem int_decr_of_ne (c : Int) (h : c ≠ INT_MIN) : int_decr c = c - 1 := by
  unfold int_decr
  rw [if_neg h]

/-- From 1 or more the decrement is the subtraction of 1. -/
theorem int_decr_of_pos (c : Int) (h : c ≥ 1) : int_decr c = c - 1 := by
  apply int_decr_of_ne
  unfold INT_MIN
  omega

/-- The decrement stays within `INT_MAX`. -/
theorem int_decr_le (c : Int) (h : c ≤ INT_MAX) : int_decr c ≤ INT_MAX := by
  unfold int_decr INT_MAX INT_MIN at *
  split <;> omega

/-- A record `debug_lock_alloc` hands out has the locktype asked for, count 0
and no owner. -/
theorem debug_lock_alloc_fields {W : Type} (K : Env W) (g : ProcessLockState)
    (mm_malloc_ok : Bool) (locktype : Nat) (w w1 : W) (lock : debug_lock)
    (h : debug_lock_alloc K g mm_malloc_ok locktype w = Outcome.ok (some lock) w1) :
    lock.locktype = locktype ∧ lock.count = 0 ∧ lock.held_by = 0 := by
  unfold debug_lock_alloc at h
  split at h
  · cases h
  · split at h
    · split at h
      · cases h
      · split at h
        · cases h
        · cases h; exact ⟨rfl, rfl, rfl⟩
    · cases h; exact ⟨rfl, rfl, rfl⟩

/-- The first acquisition of an unheld debug lock. -/
theorem debug_lock_lock_unheld {W : Type} (K : Env W) (g : ProcessLockState)
    (mode me : Nat) (lock : debug_lock) (w1 w2 w3 : W)
    (hcount : lock.count = 0)
    (hmode : mode_fits K.toThreadH lock.locktype mode)
    (hreal : real_lock_result K g mode lock.lock w1 = Outcome.ok 0 w2)
    (hid : (g._evthread_id_fn = FnPtr.NULL ∧ w3 = w2 ∧ me = lock.held_by) ∨
      (g._evthread_id_fn ≠ FnPtr.NULL ∧
        K.call_id g._evthread_id_fn w2 = Outcome.ok me w3)) :
    debug_lock_lock K g mode lock w1 =
      Outcome.ok 0 ({ lock with count := 1, held_by := me }, w3) := by
  unfold real_lock_result at hreal
  unfold debug_lock_lock EVUTIL_ASSERT
  rw [if_pos hmode, hreal]
  simp only [if_true]
  unfold evthread_debug_lock_mark_locked EVUTIL_ASSERT
  simp only [hcount, int_incr_zero, implies_true, if_true]
  rcases hid with ⟨hn, hw, hme⟩ | ⟨hn, hcall⟩
  · subst hw; subst hme
    simp [hn]
  · rw [if_pos hn, hcall]
    simp

/-- A further acquisition of a held non-recursive debug lock: the real lock
function has run when the assertion of line 211 stops the process. -/
theorem debug_lock_lock_held {W : Type} (K : Env W) (g : ProcessLockState)
    (mode : Nat) (lock : debug_lock) (w1 w2 : W)
    (hrec : lock.locktype &&& K.EVTHREAD_LOCKTYPE_RECURSIVE = 0)
    (hcount : lock.count ≠ 0)
    (hmode : mode_fits K.toThreadH lock.locktype mode)
    (hreal : real_lock_result K g mode lock.lock w1 = Outcome.ok 0 w2) :
    debug_lock_lock K g mode lock w1 =
      Outcome.fatal ({ lock with count := int_incr lock.count }, w2) := by
  unfold real_lock_result at hreal
  unfold debug_lock_lock EVUTIL_ASSERT
  rw [if_pos hmode, hreal]
  simp only [if_true]
  unfold evthread_debug_lock_mark_locked EVUTIL_ASSERT
  have hne : ¬ (lock.locktype &&& K.EVTHREAD_LOCKTYPE_RECURSIVE = 0 →
      int_incr lock.count = 1) := by
    intro h
    exact hcount (int_incr_eq_one lock.count (h hrec))
  simp only [hne, if_false]

/-- C9. For a debug lock handed out by `debug_lock_alloc` for a locktype
without the RECURSIVE flag, and a mode that fits the locktype: when the real
lock function, if one is installed, returns 0 in both calls and the identity
function, if one is installed, returns `me`, the first `debug_lock_lock`
returns 0 with count = 1, and a second `debug_lock_lock` on the lock so held,
with no unlock in between, ends in a fatal assertion. -/
theorem nonrecursive_second_lock_fatal {W : Type} (K : Env W) (g : ProcessLockState)
    (mm_malloc_ok : Bool) (locktype mode me : Nat) (lock : debug_lock)
    (w0 wa w1 w2 w3 w4 w5 : W)
    (hrec : locktype &&& K.EVTHREAD_LOCKTYPE_RECURSIVE = 0)
    (halloc : debug_lock_alloc K g mm_malloc_ok locktype w0 = Outcome.ok (some lock) wa)
    (hmode : mode_fits K.toThreadH locktype mode)
    (hreal1 : real_lock_result K g mode lock.lock w1 = Outcome.ok 0 w2)
    (hid : (g._evthread_id_fn = FnPtr.NULL ∧ w3 = w2 ∧ me = lock.held_by) ∨
      (g._evthread_id_fn ≠ FnPtr.NULL ∧
        K.call_id g._evthread_id_fn w2 = Outcome.ok me w3))
    (hreal2 : real_lock_result K g mode lock.lock w4 = Outcome.ok 0 w5) :
    debug_lock_lock K g mode lock w1 =
      Outcome.ok 0 ({ lock with count := 1, held_by := me }, w3) ∧
    ({ lock with count := 1, held_by := me } : debug_lock).count = 1 ∧
    debug_lock_lock K g mode { lock with count := 1, held_by := me } w4 =
      Outcome.fatal ({ lock with count := 2, held_by := me }, w5) := by
  obtain ⟨hlt, hcount, _⟩ := debug_lock_alloc_fields K g mm_malloc_ok locktype w0 wa lock halloc
  refine ⟨?_, rfl, ?_⟩
  · exact debug_lock_lock_unheld K g mode me lock w1 w2 w3 hcount (hlt ▸ hmode) hreal1 hid
  · exact debug_lock_lock_held K g mode { lock with count := 1, held_by := me } w4 w5
      (by simpa [hlt] using hrec) (by simp) (by simpa [hlt] using hmode) hreal2

/-- C9 at a concrete input: the scenario of the spec with the real lock
handle 7. -/
theorem nonrecursive_second_lock_fatal_witness :
    debug_lock_lock (counting_env 7) scenario_state 0
        { locktype := 0, held_by := 0, count := 0, lock := 7 }
        { allocated := 1, locked := 0 } =
      Outcome.ok 0 ({ locktype := 0, held_by := 0, count := 1, lock := 7 },
        { allocated := 1, locked := 1 }) ∧
    ({ locktype := 0, held_by := 0, count := 1, lock := 7 } : debug_lock).count = 1 ∧
    debug_lock_lock (counting_env 7) scenario_state 0
        { locktype := 0, held_by := 0, count := 1, lock := 7 }
        { allocated := 1, locked := 1 } =
      Outcome.fatal ({ locktype := 0, held_by := 0, count := 2, lock := 7 },
        { allocated := 1, locked := 2 }) :=
  nonrecursive_second_lock_fatal (counting_env 7) scenario_state true 0 0 0
    { locktype := 0, held_by := 0, count := 0, lock := 7 }
    { allocated := 0, locked := 0 } { allocated := 1, locked := 0 }
    { allocated := 1, locked := 0 } { allocated := 1, locked := 1 }
    { allocated := 1, locked := 1 } { allocated := 1, locked := 1 }
    { allocated := 1, locked := 2 }
    (by decide) (by decide) (by decide) (by decide) (Or.inl (by decide)) (by decide)

/-- C10 as stated fails: in the scenario of the spec (real lock handle 7,
counters starting at 0) the second `debug_lock_lock` ends in the fatal
assertion with the counter of the real lock callback at 2, not 1: the second
call runs the real lock callback before the assertion of line 211. -/
theorem scenario_counter_is_two :
    debug_lock_alloc (counting_env 7) scenario_state true 0
        { allocated := 0, locked := 0 } =
      Outcome.ok (some { locktype := 0, held_by := 0, count := 0, lock := 7 })
        { allocated := 1, locked := 0 } ∧
    debug_lock_lock (counting_env 7) scenario_state 0
        { locktype := 0, held_by := 0, count := 0, lock := 7 }
        { allocated := 1, locked := 0 } =
      Outcome.ok 0 ({ locktype := 0, held_by := 0, count := 1, lock := 7 },
        { allocated := 1, locked := 1 }) ∧
    debug_lock_lock (counting_env 7) scenario_state 0
        { locktype := 0, held_by := 0, count := 1, lock := 7 }
        { allocated := 1, locked := 1 } =
      Outcome.fatal ({ locktype := 0, held_by := 0, count := 2, lock := 7 },
        { allocated := 1, locked := 2 }) ∧
    ¬ ∃ l w, debug_lock_lock (counting_env 7) scenario_state 0
        { locktype := 0, held_by := 0, count := 1, lock := 7 }
        { allocated := 1, locked := 1 } = Outcome.fatal (l, w) ∧ w.locked = 1 := by
  refine ⟨by decide, by decide, by decide, ?_⟩
  rintro ⟨l, w, h, hw⟩
  have h2 : debug_lock_lock (counting_env 7) scenario_state 0
        { locktype := 0, held_by := 0, count := 1, lock := 7 }
        { allocated := 1, locked := 1 } =
      Outcome.fatal ({ locktype := 0, held_by := 0, count := 2, lock := 7 },
        { allocated := 1, locked := 2 }) := by decide
  rw [h2] at h
  cases h
  exact absurd hw (by decide)

/-- C10, amended. In the scenario of the spec, whatever non-null handle the
alloc callback hands out and whatever the counters are to begin with: the
debug lock is allocated over that handle, the first `debug_lock_lock` returns
0 having run the real lock callback once, and the second ends in the fatal
assertion after running the real lock callback once more, so the counter has
then been incremented exactly twice. -/
theorem scenario_second_lock (handle : Ptr) (w0 : Counters) (hh : handle ≠ 0) :
    debug_lock_alloc (counting_env handle) scenario_state true 0 w0 =
      Outcome.ok (some { locktype := 0, held_by := 0, count := 0, lock := handle })
        { w0 with allocated := w0.allocated + 1 } ∧
    debug_lock_lock (counting_env handle) scenario_state 0
        { locktype := 0, held_by := 0, count := 0, lock := handle }
        { w0 with allocated := w0.allocated + 1 } =
      Outcome.ok 0 ({ locktype := 0, held_by := 0, count := 1, lock := handle },
        { allocated := w0.allocated + 1, locked := w0.locked + 1 }) ∧
    debug_lock_lock (counting_env handle) scenario_state 0
        { locktype := 0, held_by := 0, count := 1, lock := handle }
        { allocated := w0.allocated + 1, locked := w0.locked + 1 } =
      Outcome.fatal ({ locktype := 0, held_by := 0, count := 2, lock := handle },
        { allocated := w0.allocated + 1, locked := w0.locked + 2 }) := by
  have hs : scenario_state._original_lock_fns = lock_fns_A := by decide
  have hi : scenario_state._evthread_id_fn = FnPtr.NULL := by decide
  refine ⟨?_, ?_, ?_⟩
  · simp [debug_lock_alloc, hs, lock_fns_A, counting_env, hh]
  · simp [debug_lock_lock, evthread_debug_lock_mark_locked, EVUTIL_ASSERT, mode_fits,
      hs, hi, lock_fns_A, counting_env, libevent_thread_h, int_incr_zero]
  · simp [debug_lock_lock, evthread_debug_lock_mark_locked, EVUTIL_ASSERT, mode_fits,
      hs, hi, lock_fns_A, counting_env, libevent_thread_h, int_incr_one]
    omega

/-- C10, amended, at a concrete input: handle 7, counters starting at 0. -/
theorem scenario_second_lock_witness :
    debug_lock_lock (counting_env 7) scenario_state 0
        { locktype := 0, held_by := 0, count := 1, lock := 7 }
        { allocated := 0 + 1, locked := 0 + 1 } =
      Outcome.fatal ({ locktype := 0, held_by := 0, count := 2, lock := 7 },
        { allocated := 0 + 1, locked := 0 + 2 }) :=
  (scenario_second_lock 7 { allocated := 0, locked := 0 } (by decide)).2.2

/-! ## Sequences of lock and unlock calls -/

/-- An acquisition of a recursive debug lock by the thread that holds it, or
of an unheld one. -/
theorem debug_lock_lock_recursive {W : Type} (K : Env W) (g : ProcessLockState)
    (mode me : Nat) (lock : debug_lock) (w w1 w2 : W)
    (hrec : lock.locktype &&& K.EVTHREAD_LOCKTYPE_RECURSIVE ≠ 0)
    (hmode : mode_fits K.toThreadH lock.locktype mode)
    (hreal : real_lock_result K g mode lock.lock w = Outcome.ok 0 w1)
    (hid : (g._evthread_id_fn = FnPtr.NULL ∧ w2 = w1 ∧ me = lock.held_by) ∨
      (g._evthread_id_fn ≠ FnPtr.NULL ∧
        K.call_id g._evthread_id_fn w1 = Outcome.ok me w2))
    (hown : g._evthread_id_fn ≠ FnPtr.NULL → lock.count ≥ 1 → lock.held_by = me) :
    debug_lock_lock K g mode lock w =
      Outcome.ok 0 ({ lock with count := int_incr lock.count, held_by := me }, w2) := by
  unfold real_lock_result at hreal
  unfold debug_lock_lock EVUTIL_ASSERT
  rw [if_pos hmode, hreal]
  simp only [if_true]
  unfold evthread_debug_lock_mark_locked EVUTIL_ASSERT
  have h1 : (lock.locktype &&& K.EVTHREAD_LOCKTYPE_RECURSIVE = 0 →
      int_incr lock.count = 1) :=
    fun h => absurd h hrec
  dsimp only
  rw [if_pos h1]
  rcases hid with ⟨hn, hw, hme⟩ | ⟨hn, hcall⟩
  · subst hw; subst hme
    simp [hn]
  · rw [if_pos hn, hcall]
    have h2 : (int_incr lock.count > 1 → lock.held_by = me) :=
      fun h => hown hn (int_incr_gt_one lock.count h)
    dsimp only
    rw [if_pos h2]

/-- A release of a debug lock held by the calling thread. -/
theorem debug_lock_unlock_held {W : Type} (K : Env W) (g : ProcessLockState)
    (mode me : Nat) (lock : debug_lock) (w : W)
    (hmode : mode_fits K.toThreadH lock.locktype mode)
    (hcount : lock.count ≥ 1)
    (hid : g._evthread_id_fn ≠ FnPtr.NULL →
      ∀ w, ∃ w1, K.call_id g._evthread_id_fn w = Outcome.ok me w1)
    (hown : g._evthread_id_fn ≠ FnPtr.NULL → lock.held_by = me)
    (hunlock : g._original_lock_fns.unlock ≠ FnPtr.NULL →
      ∀ w, ∃ r w1, K.call_lockop g._original_lock_fns.unlock mode lock.lock w =
        Outcome.ok r w1) :
    ∃ r w1, debug_lock_unlock K g mode lock w =
      Outcome.ok r
        ({ lock with
            count := lock.count - 1
            held_by := if g._evthread_id_fn ≠ FnPtr.NULL ∧ lock.count = 1 then 0
                       else lock.held_by }, w1) := by
  have hge : lock.count - 1 ≥ 0 := by omega
  by_cases hn : g._evthread_id_fn ≠ FnPtr.NULL
  · obtain ⟨wi, hcall⟩ := hid hn w
    have hmark : evthread_debug_lock_mark_unlocked K g mode lock w =
        Outcome.ok ()
          ({ lock with
              count := lock.count - 1
              held_by := if g._evthread_id_fn ≠ FnPtr.NULL ∧ lock.count = 1 then 0
                         else lock.held_by }, wi) := by
      unfold evthread_debug_lock_mark_unlocked EVUTIL_ASSERT
      rw [if_pos hmode, if_pos hn, hcall]
      dsimp only
      rw [if_pos (hown hn)]
      by_cases h1 : lock.count = 1
      · simp [h1, hn, int_decr_one]
      · simp [h1, hge, int_decr_of_pos lock.count hcount]
    unfold debug_lock_unlock
    rw [hmark]
    by_cases hu : g._original_lock_fns.unlock ≠ FnPtr.NULL
    · obtain ⟨r, w1, hr⟩ := hunlock hu wi
      refine ⟨r, w1, ?_⟩
      simp only [if_pos hu]
      rw [hr]
    · refine ⟨0, wi, ?_⟩
      simp only [if_neg hu]
  · have hmark : evthread_debug_lock_mark_unlocked K g mode lock w =
        Outcome.ok ()
          ({ lock with
              count := lock.count - 1
              held_by := if g._evthread_id_fn ≠ FnPtr.NULL ∧ lock.count = 1 then 0
                         else lock.held_by }, w) := by
      unfold evthread_debug_lock_mark_unlocked EVUTIL_ASSERT
      rw [if_pos hmode, if_neg hn]
      simp [hge, hn, int_decr_of_pos lock.count hcount]
    unfold debug_lock_unlock
    rw [hmark]
    by_cases hu : g._original_lock_fns.unlock ≠ FnPtr.NULL
    · obtain ⟨r, w1, hr⟩ := hunlock hu w
      refine ⟨r, w1, ?_⟩
      simp only [if_pos hu]
      rw [hr]
    · refine ⟨0, w, ?_⟩
      simp only [if_neg hu]

/-- A run of two sequences of calls, one after the other. -/
theorem run_ops_append {W : Type} (K : Env W) (g : ProcessLockState)
    (a b : List DebugOp) (lock : debug_lock) (w : W) :
    run_ops K g (a ++ b) lock w =
      match run_ops K g a lock w with
      | Outcome.fatal st => Outcome.fatal st
      | Outcome.ok _ (lock1, w1) => run_ops K g b lock1 w1 := by
  induction a generalizing lock w with
  | nil => rfl
  | cons op rest ih =>
    simp only [List.cons_append, run_ops]
    cases h : run_op K g op lock w with
    | fatal st => rfl
    | ok r st =>
      obtain ⟨l1, w1⟩ := st
      exact ih l1 w1

/-- Acquiring a recursive debug lock `n` times in a row from one thread, the
count staying within `INT_MAX`. -/
theorem run_ops_locks {W : Type} (K : Env W) (g : ProcessLockState) (me n : Nat)
    (lock : debug_lock) (w : W)
    (hrec : lock.locktype &&& K.EVTHREAD_LOCKTYPE_RECURSIVE ≠ 0)
    (hmode : mode_fits K.toThreadH lock.locktype 0)
    (hb : lock.count + n ≤ INT_MAX)
    (hlock : ∀ w, ∃ w1, real_lock_result K g 0 lock.lock w = Outcome.ok 0 w1)
    (hid : g._evthread_id_fn ≠ FnPtr.NULL →
      ∀ w, ∃ w1, K.call_id g._evthread_id_fn w = Outcome.ok me w1)
    (hown : g._evthread_id_fn ≠ FnPtr.NULL → lock.count ≥ 1 → lock.held_by = me) :
    ∃ l1 w1, run_ops K g (List.replicate n (DebugOp.lock 0)) lock w =
        Outcome.ok () (l1, w1) ∧
      l1.locktype = lock.locktype ∧ l1.lock = lock.lock ∧
      l1.count = lock.count + n ∧
      (g._evthread_id_fn = FnPtr.NULL → l1.held_by = lock.held_by) ∧
      (g._evthread_id_fn ≠ FnPtr.NULL → (n ≥ 1 ∨ lock.count ≥ 1) → l1.held_by = me) := by
  induction n generalizing lock w with
  | zero =>
    refine ⟨lock, w, rfl, rfl, rfl, by simp, fun _ => rfl, ?_⟩
    intro hn h
    rcases h with h | h
    · omega
    · exact hown hn h
  | succ n ih =>
    obtain ⟨wa, hreal⟩ := hlock w
    have hinc : int_incr lock.count = lock.count + 1 := by
      apply int_incr_of_ne
      intro he
      rw [he] at hb
      push_cast at hb
      omega
    have hstep : ∃ me1 wb, debug_lock_lock K g 0 lock w =
        Outcome.ok 0 ({ lock with count := lock.count + 1, held_by := me1 }, wb) ∧
        (g._evthread_id_fn = FnPtr.NULL → me1 = lock.held_by) ∧
        (g._evthread_id_fn ≠ FnPtr.NULL → me1 = me) := by
      by_cases hn : g._evthread_id_fn ≠ FnPtr.NULL
      · obtain ⟨wb, hcall⟩ := hid hn wa
        have hl := debug_lock_lock_recursive K g 0 me lock w wa wb hrec hmode hreal
          (Or.inr ⟨hn, hcall⟩) hown
        rw [hinc] at hl
        exact ⟨me, wb, hl, fun h => absurd h hn, fun _ => rfl⟩
      · have hn1 : g._evthread_id_fn = FnPtr.NULL := not_not.mp hn
        have hl := debug_lock_lock_recursive K g 0 lock.held_by lock w wa wa hrec hmode
          hreal (Or.inl ⟨hn1, rfl, rfl⟩) (fun h => absurd h hn)
        rw [hinc] at hl
        exact ⟨lock.held_by, wa, hl, fun _ => rfl, fun h => absurd h hn⟩
    obtain ⟨me1, wb, hcall, hme0, hme1⟩ := hstep
    obtain ⟨l1, w1, hrun, hlt, hlk, hc, hh0, hh1⟩ :=
      ih { lock with count := lock.count + 1, held_by := me1 } wb hrec hmode
        (by
          show lock.count + 1 + (n : Int) ≤ INT_MAX
          push_cast at hb
          omega)
        hlock (fun hn _ => hme1 hn)
    refine ⟨l1, w1, ?_, hlt, hlk, ?_, ?_, ?_⟩
    · simp only [List.replicate_succ, run_ops, run_op]
      rw [hcall]
      exact hrun
    · rw [hc]
      push_cast
      ring
    · intro hn
      rw [hh0 hn]
      exact hme0 hn
    · intro hn _
      by_cases h0 : n ≥ 1
      · exact hh1 hn (Or.inl h0)
      · have hz : n = 0 := by omega
        subst hz
        simp only [List.replicate_zero, run_ops] at hrun
        cases hrun
        exact hme1 hn

/-- Releasing a debug lock `k` times in a row, `k` no more than its count,
from the thread that holds it. -/
theorem run_ops_unlocks {W : Type} (K : Env W) (g : ProcessLockState) (me k : Nat)
    (lock : debug_lock) (w : W)
    (hmode : mode_fits K.toThreadH lock.locktype 0)
    (hk : (k : Int) ≤ lock.count)
    (hid : g._evthread_id_fn ≠ FnPtr.NULL →
      ∀ w, ∃ w1, K.call_id g._evthread_id_fn w = Outcome.ok me w1)
    (hown : g._evthread_id_fn ≠ FnPtr.NULL → lock.count ≥ 1 → lock.held_by = me)
    (hunlock : g._original_lock_fns.unlock ≠ FnPtr.NULL →
      ∀ w, ∃ r w1, K.call_lockop g._original_lock_fns.unlock 0 lock.lock w =
        Outcome.ok r w1) :
    ∃ l1 w1, run_ops K g (List.replicate k (DebugOp.unlock 0)) lock w =
        Outcome.ok () (l1, w1) ∧
      l1.locktype = lock.locktype ∧ l1.lock = lock.lock ∧
      l1.count = lock.count - k ∧
      (g._evthread_id_fn = FnPtr.NULL → l1.held_by = lock.held_by) ∧
      (g._evthread_id_fn ≠ FnPtr.NULL → l1.count ≥ 1 → l1.held_by = me) ∧
      (g._evthread_id_fn ≠ FnPtr.NULL → k ≥ 1 → l1.count = 0 → l1.held_by = 0) := by
  induction k generalizing lock w with
  | zero =>
    exact ⟨lock, w, rfl, rfl, rfl, by simp, fun _ => rfl, hown,
      fun _ h => absurd h (by decide)⟩
  | succ k ih =>
    have hc1 : lock.count ≥ 1 := by push_cast at hk; omega
    obtain ⟨r, wa, hcall⟩ := debug_lock_unlock_held K g 0 me lock w hmode hc1 hid
      (fun hn => hown hn hc1) hunlock
    obtain ⟨l1, w1, hrun, hlt, hlk, hc, hh0, hh1, hh2⟩ :=
      ih { lock with
            count := lock.count - 1
            held_by := if g._evthread_id_fn ≠ FnPtr.NULL ∧ lock.count = 1 then 0
                       else lock.held_by } wa hmode
        (by push_cast at hk; show (k : Int) ≤ lock.count - 1; omega)
        (by
          intro hn h
          have h2 : ¬ lock.count = 1 := by
            have h' : lock.count - 1 ≥ 1 := h
            omega
          show (if g._evthread_id_fn ≠ FnPtr.NULL ∧ lock.count = 1 then 0
                else lock.held_by) = me
          rw [if_neg (fun hh => h2 hh.2)]
          exact hown hn hc1)
        hunlock
    refine ⟨l1, w1, ?_, hlt, hlk, ?_, ?_, hh1, ?_⟩
    · simp only [List.replicate_succ, run_ops, run_op]
      rw [hcall]
      exact hrun
    · rw [hc]
      push_cast
      show lock.count - 1 - (k : Int) = lock.count - ((k : Int) + 1)
      ring
    · intro hn
      rw [hh0 hn]
      show (if g._evthread_id_fn ≠ FnPtr.NULL ∧ lock.count = 1 then 0
            else lock.held_by) = lock.held_by
      rw [if_neg (fun hh => hh.1 hn)]
    · intro hn _ hz
      by_cases h0 : k ≥ 1
      · exact hh2 hn h0 hz
      · have hk0 : k = 0 := by omega
        subst hk0
        simp only [List.replicate_zero, run_ops] at hrun
        cases hrun
        have hone : lock.count = 1 := by
          have h' : lock.count - 1 = 0 := hz
          omega
        show (if g._evthread_id_fn ≠ FnPtr.NULL ∧ lock.count = 1 then 0
              else lock.held_by) = 0
        rw [if_pos ⟨hn, hone⟩]

/-- C11 as stated fails: `count` is an `int`. After 2147483648 (that is
`INT_MAX` + 1) consecutive `debug_lock_lock` calls with mode 0 from thread 42
on a recursive lock that starts with count 0, no assertion has fired and the
count is -2147483648, not the number of locks: the last `++` of line 209
overflowed. -/
theorem recursive_lock_count_overflows :
    ∃ w1, run_ops (thread_env 42 7) scenario_state_id
        (List.replicate 2147483648 (DebugOp.lock 0))
        { locktype := 1, held_by := 0, count := 0, lock := 7 }
        { allocated := 1, locked := 0 } =
      Outcome.ok () ({ locktype := 1, held_by := 42, count := -2147483648, lock := 7 }, w1) := by
  have hrec : (1 : Nat) &&& (thread_env 42 7).EVTHREAD_LOCKTYPE_RECURSIVE ≠ 0 := by decide
  have hmode : mode_fits (thread_env 42 7).toThreadH 1 0 := by decide
  have hidn : scenario_state_id._evthread_id_fn ≠ FnPtr.NULL := by decide
  obtain ⟨l1, w1, hrun, hlt, hlk, hc, _, hh1⟩ :=
    run_ops_locks (thread_env 42 7) scenario_state_id 42 2147483647
      { locktype := 1, held_by := 0, count := 0, lock := 7 }
      { allocated := 1, locked := 0 } hrec hmode (by decide)
      (fun w => ⟨{ w with locked := w.locked + 1 }, rfl⟩)
      (fun _ w => ⟨w, rfl⟩)
      (fun _ h => absurd h (by decide))
  have hl1 : l1 = { locktype := 1, held_by := 42, count := 2147483647, lock := 7 } := by
    have hh := hh1 hidn (Or.inl (by decide))
    cases l1
    simp only at hlt hlk hc hh
    rw [hlt, hlk, hc, hh]
    rfl
  subst hl1
  have hlast := debug_lock_lock_recursive (thread_env 42 7) scenario_state_id 0 42
    { locktype := 1, held_by := 42, count := 2147483647, lock := 7 }
    w1 { w1 with locked := w1.locked + 1 } { w1 with locked := w1.locked + 1 }
    hrec hmode rfl (Or.inr ⟨hidn, rfl⟩) (fun _ _ => rfl)
  refine ⟨{ w1 with locked := w1.locked + 1 }, ?_⟩
  have hN : (2147483648 : Nat) = 2147483647 + 1 := by norm_num
  rw [hN, List.replicate_succ', run_ops_append, hrun]
  simp only [run_ops, run_op]
  rw [hlast]
  rfl

/-- C11, amended. For a debug lock whose locktype has the RECURSIVE flag and
not the READWRITE flag, starting with count 0, and every N with
1 ≤ N ≤ `INT_MAX`: when the real lock function returns 0, the real unlock
function returns, and the identity function (if installed) returns `me` on
every call, N consecutive `debug_lock_lock` calls with mode 0 followed by N
consecutive `debug_lock_unlock` calls with mode 0 hit no fatal assertion; the
count is N after the locks, it is N - k > 0 (the owner still `me`) after
k < N unlocks, and it is 0 with the owner cleared after N unlocks. -/
theorem recursive_lock_n_unlock_n {W : Type} (K : Env W) (g : ProcessLockState)
    (me N : Nat) (lock : debug_lock) (w : W)
    (hrec : lock.locktype &&& K.EVTHREAD_LOCKTYPE_RECURSIVE ≠ 0)
    (hrw : lock.locktype &&& K.EVTHREAD_LOCKTYPE_READWRITE = 0)
    (hcount : lock.count = 0)
    (hN : 1 ≤ N)
    (hmax : (N : Int) ≤ INT_MAX)
    (hlock : ∀ w, ∃ w1, real_lock_result K g 0 lock.lock w = Outcome.ok 0 w1)
    (hunlock : g._original_lock_fns.unlock ≠ FnPtr.NULL →
      ∀ w, ∃ r w1, K.call_lockop g._original_lock_fns.unlock 0 lock.lock w =
        Outcome.ok r w1)
    (hid : g._evthread_id_fn ≠ FnPtr.NULL →
      ∀ w, ∃ w1, K.call_id g._evthread_id_fn w = Outcome.ok me w1) :
    (∃ l1 w1, run_ops K g (List.replicate N (DebugOp.lock 0)) lock w =
        Outcome.ok () (l1, w1) ∧
      l1.count = N ∧ (g._evthread_id_fn ≠ FnPtr.NULL → l1.held_by = me)) ∧
    (∀ k, k < N →
      ∃ l2 w2, run_ops K g
          (List.replicate N (DebugOp.lock 0) ++ List.replicate k (DebugOp.unlock 0))
          lock w = Outcome.ok () (l2, w2) ∧
        l2.count = (N : Int) - k ∧ l2.count > 0 ∧
        (g._evthread_id_fn ≠ FnPtr.NULL → l2.held_by = me)) ∧
    (∃ l3 w3, run_ops K g
        (List.replicate N (DebugOp.lock 0) ++ List.replicate N (DebugOp.unlock 0))
        lock w = Outcome.ok () (l3, w3) ∧
      l3.count = 0 ∧ (g._evthread_id_fn ≠ FnPtr.NULL → l3.held_by = 0)) := by
  have hmode : mode_fits K.toThreadH lock.locktype 0 := by
    unfold mode_fits
    simp [hrw]
  obtain ⟨l1, w1, hrun, hlt, hlk, hc, _, hh1⟩ :=
    run_ops_locks K g me N lock w hrec hmode (by rw [hcount]; simpa using hmax) hlock hid
      (fun _ h => absurd h (by rw [hcount]; decide))
  have hcN : l1.count = N := by rw [hc, hcount]; simp
  have hown1 : g._evthread_id_fn ≠ FnPtr.NULL → l1.held_by = me :=
    fun hn => hh1 hn (Or.inl hN)
  have hafter : ∀ k, k ≤ N →
      ∃ l2 w2, run_ops K g
          (List.replicate N (DebugOp.lock 0) ++ List.replicate k (DebugOp.unlock 0))
          lock w = Outcome.ok () (l2, w2) ∧
        l2.count = (N : Int) - k ∧
        (g._evthread_id_fn ≠ FnPtr.NULL → l2.count ≥ 1 → l2.held_by = me) ∧
        (g._evthread_id_fn ≠ FnPtr.NULL → k ≥ 1 → l2.count = 0 → l2.held_by = 0) := by
    intro k hk
    obtain ⟨l2, w2, hrun2, _, _, hc2, _, hh3, hh4⟩ :=
      run_ops_unlocks K g me k l1 w1 (hlt ▸ hmode) (by rw [hcN]; exact_mod_cast hk) hid
        (fun hn _ => hown1 hn) (hlk ▸ hunlock)
    refine ⟨l2, w2, ?_, ?_, hh3, hh4⟩
    · rw [run_ops_append, hrun]
      exact hrun2
    · rw [hc2, hcN]
  refine ⟨⟨l1, w1, hrun, hcN, hown1⟩, ?_, ?_⟩
  · intro k hk
    obtain ⟨l2, w2, hrun2, hc2, hh3, _⟩ := hafter k (le_of_lt hk)
    have hpos : l2.count > 0 := by rw [hc2]; omega
    exact ⟨l2, w2, hrun2, hc2, hpos, fun hn => hh3 hn (by omega)⟩
  · obtain ⟨l3, w3, hrun3, hc3, _, hh4⟩ := hafter N (le_refl N)
    have hz : l3.count = 0 := by rw [hc3]; simp
    exact ⟨l3, w3, hrun3, hz, fun hn => hh4 hn hN hz⟩

/-- C11, amended, at a concrete input: a recursive lock over the real handle
7, thread identity 42, N = 3. -/
theorem recursive_lock_n_unlock_n_witness :
    ∃ l3 w3, run_ops (thread_env 42 7) scenario_state_id
        (List.replicate 3 (DebugOp.lock 0) ++ List.replicate 3 (DebugOp.unlock 0))
        { locktype := 1, held_by := 0, count := 0, lock := 7 }
        { allocated := 1, locked := 0 } = Outcome.ok () (l3, w3) ∧
      l3.count = 0 ∧
      (scenario_state_id._evthread_id_fn ≠ FnPtr.NULL → l3.held_by = 0) :=
  (recursive_lock_n_unlock_n (thread_env 42 7) scenario_state_id 42 3
    { locktype := 1, held_by := 0, count := 0, lock := 7 }
    { allocated := 1, locked := 0 }
    (by decide) (by decide) rfl (by decide) (by decide)
    (fun w => ⟨{ w with locked := w.locked + 1 }, rfl⟩)
    (fun _ w => ⟨0, { w with locked := w.locked - 1 }, rfl⟩)
    (fun _ w => ⟨w, rfl⟩)).2.2

/-! ## Ownership, idempotent enabling, read-write locks -/

/-- C12. With an identity function installed that returns `me` for the
calling thread, `debug_lock_unlock` with a fitting mode on a lock held
(count > 0) by an owner other than `me` ends in a fatal assertion. The record
at that point is the one passed in, so count has not been decremented, and
the world is the one the identity function left: the outcome is the same
whatever the real unlock function would do, it is not called. -/
theorem unlock_by_non_owner_fatal {W : Type} (K : Env W) (g : ProcessLockState)
    (mode me : Nat) (lock : debug_lock) (w w1 : W)
    (hinst : g._evthread_id_fn ≠ FnPtr.NULL)
    (hheld : lock.count > 0)
    (hmode : mode_fits K.toThreadH lock.locktype mode)
    (hcall : K.call_id g._evthread_id_fn w = Outcome.ok me w1)
    (hne : lock.held_by ≠ me) :
    debug_lock_unlock K g mode lock w = Outcome.fatal (lock, w1) ∧
    lock.count > 0 ∧
    ∀ f : FnPtr → Nat → Ptr → W → Outcome W Int,
      debug_lock_unlock { K with call_lockop := f } g mode lock w =
        Outcome.fatal (lock, w1) := by
  have key : ∀ K2 : Env W, K2.toThreadH = K.toThreadH → K2.call_id = K.call_id →
      debug_lock_unlock K2 g mode lock w = Outcome.fatal (lock, w1) := by
    intro K2 hH hI
    unfold debug_lock_unlock evthread_debug_lock_mark_unlocked EVUTIL_ASSERT
    rw [hH, if_pos hmode, if_pos hinst, hI, hcall]
    dsimp only
    rw [if_neg hne]
  exact ⟨key K rfl rfl, hheld, fun f => key { K with call_lockop := f } rfl rfl⟩

/-- C12 at a concrete input: a lock held by thread 5, released by thread
42. -/
theorem unlock_by_non_owner_fatal_witness :
    debug_lock_unlock (thread_env 42 7) scenario_state_id 0
        { locktype := 0, held_by := 5, count := 1, lock := 7 }
        { allocated := 1, locked := 1 } =
      Outcome.fatal ({ locktype := 0, held_by := 5, count := 1, lock := 7 },
        { allocated := 1, locked := 1 }) :=
  (unlock_by_non_owner_fatal (thread_env 42 7) scenario_state_id 0 42
    { locktype := 0, held_by := 5, count := 1, lock := 7 }
    { allocated := 1, locked := 1 } { allocated := 1, locked := 1 }
    (by decide) (by decide) (by decide) rfl (by decide)).1

/-- C17. `evthread_enable_lock_debuging` is idempotent: in every state a
second call in a row leaves the state the first call produced, so the
original lock and condition sets the first call captured are not overwritten,
and the second call does not call `event_global_setup_locks_`. -/
theorem enable_lock_debuging_idempotent (H : ThreadH) (s : ProcessLockState) :
    (evthread_enable_lock_debuging H (evthread_enable_lock_debuging H s).state).state =
      (evthread_enable_lock_debuging H s).state ∧
    (evthread_enable_lock_debuging H
      (evthread_enable_lock_debuging H s).state).state._original_lock_fns =
      (evthread_enable_lock_debuging H s).state._original_lock_fns ∧
    (evthread_enable_lock_debuging H
      (evthread_enable_lock_debuging H s).state).state._original_cond_fns =
      (evthread_enable_lock_debuging H s).state._original_cond_fns ∧
    (evthread_enable_lock_debuging H (evthread_enable_lock_debuging H s).state).trace =
      [] ∧
    (s._evthread_lock_debugging_enabled = 0 →
      (evthread_enable_lock_debuging H s).state._original_lock_fns =
        s._evthread_lock_fns ∧
      (evthread_enable_lock_debuging H s).state._original_cond_fns =
        s._evthread_cond_fns) := by
  have hen : (evthread_enable_lock_debuging H s).state._evthread_lock_debugging_enabled ≠ 0 := by
    unfold evthread_enable_lock_debuging
    by_cases hd : s._evthread_lock_debugging_enabled ≠ 0
    · rw [if_pos hd]; exact hd
    · rw [if_neg hd]; show (1 : Int) ≠ 0; decide
  have h2 : evthread_enable_lock_debuging H (evthread_enable_lock_debuging H s).state =
      { status := 0, state := (evthread_enable_lock_debuging H s).state, trace := [] } := by
    generalize (evthread_enable_lock_debuging H s).state = t at hen
    unfold evthread_enable_lock_debuging
    rw [if_pos hen]
  rw [h2]
  refine ⟨rfl, rfl, rfl, rfl, ?_⟩
  intro hd
  unfold evthread_enable_lock_debuging
  simp [hd]

/-- C20. For a debug lock whose locktype has the READWRITE flag, in every
state of the lock, `debug_cond_wait` ends in a fatal assertion before it
reaches the call of the real `wait_condition`: the part of the function that
precedes that call already ends fatally, and the outcome is the same whatever
the real wait function would do. When the lock passes the held check, the
assertion that fails is the mode check of the release with mode 0. -/
theorem cond_wait_readwrite_fatal {W : Type} (K : Env W) (g : ProcessLockState)
    (cond : Ptr) (lock : debug_lock) (tv : Timeval) (w : W)
    (hrw : lock.locktype &&& K.EVTHREAD_LOCKTYPE_READWRITE ≠ 0) :
    (∃ st, debug_cond_wait_release K g lock w = Outcome.fatal st ∧
      debug_cond_wait K g cond lock tv w = Outcome.fatal st ∧
      ∀ f : FnPtr → Ptr → Ptr → Timeval → W → Outcome W Int,
        debug_cond_wait { K with call_wait := f } g cond lock tv w = Outcome.fatal st) ∧
    ¬ mode_fits K.toThreadH lock.locktype 0 ∧
    (∀ w1, evthread_debug_lock_mark_unlocked K g 0 lock w1 = Outcome.fatal (lock, w1)) := by
  have hmode : ¬ mode_fits K.toThreadH lock.locktype 0 := by
    unfold mode_fits
    rw [if_pos hrw]
    simp
  have hmark : ∀ K2 : Env W, K2.toThreadH = K.toThreadH → ∀ w1,
      evthread_debug_lock_mark_unlocked K2 g 0 lock w1 = Outcome.fatal (lock, w1) := by
    intro K2 hH w1
    unfold evthread_debug_lock_mark_unlocked EVUTIL_ASSERT
    rw [hH, if_neg hmode]
  have hrel : ∀ K2 : Env W, K2.toThreadH = K.toThreadH → K2.call_id = K.call_id →
      ∃ st, debug_cond_wait_release K2 g lock w = Outcome.fatal st ∧
        debug_cond_wait_release K g lock w = Outcome.fatal st := by
    intro K2 hH hI
    unfold debug_cond_wait_release EVLOCK_ASSERT_LOCKED _evthread_is_debug_lock_held
      EVUTIL_ASSERT
    simp only [hmark K2 hH, hmark K rfl, hI]
    by_cases hc : lock.count = 0
    · simp [hc]
    · simp only [hc, if_false]
      by_cases hn : g._evthread_id_fn ≠ FnPtr.NULL
      · simp only [if_pos hn]
        cases hcall : K.call_id g._evthread_id_fn w with
        | fatal w1 => exact ⟨_, rfl, rfl⟩
        | ok me w1 =>
          by_cases hh : lock.held_by ≠ me
          · simp [hh]
          · simp [hh]
      · simp [hn]
  obtain ⟨st, h1, _⟩ := hrel K rfl rfl
  refine ⟨⟨st, h1, ?_, ?_⟩, hmode, hmark K rfl⟩
  · unfold debug_cond_wait
    rw [h1]
  · intro f
    obtain ⟨st2, h2, h3⟩ := hrel { K with call_wait := f } rfl rfl
    rw [h1] at h3
    cases h3
    unfold debug_cond_wait
    rw [h2]

/-- C20 at a concrete input: a read-write lock held once by thread 42. -/
theorem cond_wait_readwrite_fatal_witness :
    debug_cond_wait (thread_env 42 7) scenario_state_id 3
        { locktype := 2, held_by := 42, count := 1, lock := 7 } none
        { allocated := 1, locked := 1 } =
      Outcome.fatal ({ locktype := 2, held_by := 42, count := 1, lock := 7 },
        { allocated := 1, locked := 1 }) := by
  obtain ⟨⟨st, h1, h2, _⟩, _, _⟩ :=
    cond_wait_readwrite_fatal (thread_env 42 7) scenario_state_id 3
      { locktype := 2, held_by := 42, count := 1, lock := 7 } none
      { allocated := 1, locked := 1 } (by decide)
  rw [h2]
  have h3 : debug_cond_wait_release (thread_env 42 7) scenario_state_id
      { locktype := 2, held_by := 42, count := 1, lock := 7 }
      { allocated := 1, locked := 1 } =
      Outcome.fatal ({ locktype := 2, held_by := 42, count := 1, lock := 7 },
        { allocated := 1, locked := 1 }) := by decide
  rw [h3] at h1
  cases h1
  rfl

/-! ## The count of a non-recursive lock -/

/-- What `evthread_debug_lock_mark_locked` has done when it returns. -/
theorem mark_locked_ok_fields {W : Type} (K : Env W) (g : ProcessLockState)
    (mode : Nat) (l l1 : debug_lock) (w w1 : W)
    (h : evthread_debug_lock_mark_locked K g mode l w = Outcome.ok () (l1, w1)) :
    l1.locktype = l.locktype ∧ l1.count = int_incr l.count ∧
    (l.locktype &&& K.EVTHREAD_LOCKTYPE_RECURSIVE = 0 → l1.count = 1) := by
  unfold evthread_debug_lock_mark_locked EVUTIL_ASSERT at h
  dsimp only at h
  split at h
  · rename_i hA
    split at h
    · split at h
      · cases h
      · split at h
        · cases h; exact ⟨rfl, rfl, hA⟩
        · cases h
    · cases h; exact ⟨rfl, rfl, hA⟩
  · cases h

/-- What `evthread_debug_lock_mark_unlocked` has done when it returns. -/
theorem mark_unlocked_ok_fields {W : Type} (K : Env W) (g : ProcessLockState)
    (mode : Nat) (l l1 : debug_lock) (w w1 : W)
    (h : evthread_debug_lock_mark_unlocked K g mode l w = Outcome.ok () (l1, w1)) :
    l1.locktype = l.locktype ∧ l1.count = int_decr l.count ∧ l1.count ≥ 0 := by
  unfold evthread_debug_lock_mark_unlocked EVUTIL_ASSERT at h
  dsimp only at h
  repeat' split at h
  all_goals first
    | (cases h; done)
    | (cases h; refine ⟨rfl, ?_, ?_⟩ <;> first | rfl | assumption)

/-- One call of a debug operation that returns keeps the locktype, keeps the
count of a non-recursive lock within 0 and 1, and keeps the count within
`INT_MAX`. -/
theorem run_op_preserves {W : Type} (K : Env W) (g : ProcessLockState) (op : DebugOp)
    (l l1 : debug_lock) (w w1 : W) (r : Int)
    (h : run_op K g op l w = Outcome.ok r (l1, w1)) :
    l1.locktype = l.locktype ∧
    (l.locktype &&& K.EVTHREAD_LOCKTYPE_RECURSIVE = 0 →
      (l.count = 0 ∨ l.count = 1) → (l1.count = 0 ∨ l1.count = 1)) ∧
    (l.count ≤ INT_MAX → l1.count ≤ INT_MAX) := by
  cases op with
  | lock mode =>
    simp only [run_op] at h
    unfold debug_lock_lock EVUTIL_ASSERT at h
    split at h
    · split at h
      · cases h
      · split at h
        · split at h
          · cases h
          · rename_i hm
            cases h
            obtain ⟨h1, h2, h3⟩ := mark_locked_ok_fields K g mode l _ _ _ hm
            refine ⟨h1, fun hrec _ => Or.inr (h3 hrec), fun hb => ?_⟩
            rw [h2]
            exact int_incr_le l.count hb
        · cases h
          exact ⟨rfl, fun _ hc => hc, fun hb => hb⟩
    · cases h
  | unlock mode =>
    simp only [run_op] at h
    unfold debug_lock_unlock at h
    split at h
    · cases h
    · rename_i hm
      obtain ⟨h1, h2, h3⟩ := mark_unlocked_ok_fields K g mode l _ _ _ hm
      have key : l1.locktype = l.locktype ∧ l1.count = int_decr l.count ∧ l1.count ≥ 0 := by
        split at h
        · split at h
          · cases h
          · cases h; exact ⟨h1, h2, h3⟩
        · cases h; exact ⟨h1, h2, h3⟩
      obtain ⟨k1, k2, k3⟩ := key
      refine ⟨k1, fun _ hc => ?_, fun hb => ?_⟩
      · rcases hc with hc | hc
        · rw [hc] at k2
          have hd : int_decr 0 = -1 := by decide
          rw [hd] at k2
          omega
        · rw [hc, int_decr_one] at k2
          exact Or.inl k2
      · rw [k2]
        exact int_decr_le l.count hb
  | cond_wait cond tv =>
    simp only [run_op] at h
    unfold debug_cond_wait at h
    split at h
    · cases h
    · rename_i hrel
      unfold debug_cond_wait_release EVLOCK_ASSERT_LOCKED EVUTIL_ASSERT at hrel
      split at hrel
      · cases hrel
      · split at hrel
        · obtain ⟨h1, h2, _⟩ := mark_unlocked_ok_fields K g 0 l _ _ _ hrel
          split at h
          · cases h
          · split at h
            · cases h
            · rename_i hm
              cases h
              obtain ⟨k1, k2, k3⟩ := mark_locked_ok_fields K g 0 _ _ _ _ hm
              refine ⟨k1.trans h1, fun hrec _ => Or.inr (k3 ?_), fun hb => ?_⟩
              · rw [h1]
                exact hrec
              · rw [k2]
                apply int_incr_le
                rw [h2]
                exact int_decr_le l.count hb
        · cases hrel

/-- Every record reachable from `l0` has the locktype of `l0`; when `l0` has
count 0, its count is within `INT_MAX`, and, for a non-recursive lock, 0 or
1. -/
theorem lock_reachable_invariant {W : Type} (K : Env W) (l0 l : debug_lock)
    (h0 : l0.count = 0) (h : LockReachable K l0 l) :
    l.locktype = l0.locktype ∧
    (l0.locktype &&& K.EVTHREAD_LOCKTYPE_RECURSIVE = 0 → (l.count = 0 ∨ l.count = 1)) ∧
    l.count ≤ INT_MAX := by
  induction h with
  | start => exact ⟨rfl, fun _ => Or.inl h0, by rw [h0]; decide⟩
  | step l l1 g op w w1 r _ hstep ih =>
    obtain ⟨h1, h2, h3⟩ := run_op_preserves K g op l l1 w w1 r hstep
    refine ⟨h1.trans ih.1, fun hrec => h2 ?_ (ih.2.1 hrec), h3 ih.2.2⟩
    rw [ih.1]
    exact hrec

/-- C18. For a debug lock whose locktype lacks the RECURSIVE flag, starting
from count 0: after every finite sequence of `debug_lock_lock`,
`debug_lock_unlock` and `debug_cond_wait` calls none of which ended in a
fatal assertion, whatever the globals and the world were at each call, the
count is 0 or 1. -/
theorem nonrecursive_count_invariant {W : Type} (K : Env W) (l0 l : debug_lock)
    (hrec : l0.locktype &&& K.EVTHREAD_LOCKTYPE_RECURSIVE = 0)
    (h0 : l0.count = 0)
    (hreach : LockReachable K l0 l) :
    (l.count = 0 ∨ l.count = 1) ∧ l.count ≤ 1 ∧ 0 ≤ l.count := by
  have h := (lock_reachable_invariant K l0 l h0 hreach).2.1 hrec
  refine ⟨h, ?_, ?_⟩ <;> omega

/-- C18 at a concrete input: the lock of the scenario after one
`debug_lock_lock`. -/
theorem nonrecursive_count_invariant_witness :
    (({ locktype := 0, held_by := 0, count := 1, lock := 7 } : debug_lock).count = 0 ∨
      ({ locktype := 0, held_by := 0, count := 1, lock := 7 } : debug_lock).count = 1) ∧
    ({ locktype := 0, held_by := 0, count := 1, lock := 7 } : debug_lock).count ≤ 1 ∧
    0 ≤ ({ locktype := 0, held_by := 0, count := 1, lock := 7 } : debug_lock).count :=
  nonrecursive_count_invariant (counting_env 7)
    { locktype := 0, held_by := 0, count := 0, lock := 7 }
    { locktype := 0, held_by := 0, count := 1, lock := 7 }
    (by decide) rfl
    (LockReachable.step { locktype := 0, held_by := 0, count := 0, lock := 7 }
      { locktype := 0, held_by := 0, count := 1, lock := 7 }
      scenario_state (DebugOp.lock 0)
      { allocated := 1, locked := 0 } { allocated := 1, locked := 1 } 0
      LockReachable.start (by decide))

/-! ## Condition wait -/

/-- A lock with a non-zero count whose owner is the calling thread is
reported held. -/
theorem is_debug_lock_held_owner {W : Type} (K : Env W) (g : ProcessLockState)
    (me : Nat) (lock : debug_lock) (w : W)
    (hcount : lock.count ≠ 0)
    (hid : g._evthread_id_fn ≠ FnPtr.NULL →
      ∀ w, ∃ w1, K.call_id g._evthread_id_fn w = Outcome.ok me w1)
    (hown : g._evthread_id_fn ≠ FnPtr.NULL → lock.held_by = me) :
    ∃ w1, _evthread_is_debug_lock_held K g lock w = Outcome.ok 1 w1 := by
  unfold _evthread_is_debug_lock_held
  rw [if_neg hcount]
  by_cases hn : g._evthread_id_fn ≠ FnPtr.NULL
  · obtain ⟨w1, hcall⟩ := hid hn w
    refine ⟨w1, ?_⟩
    rw [if_pos hn, hcall]
    dsimp only
    rw [if_neg (not_not.mpr (hown hn))]
  · exact ⟨w, by rw [if_neg hn]⟩

/-- The bookkeeping of a release by the thread that holds the lock. -/
theorem mark_unlocked_held {W : Type} (K : Env W) (g : ProcessLockState)
    (mode me : Nat) (lock : debug_lock) (w : W)
    (hmode : mode_fits K.toThreadH lock.locktype mode)
    (hcount : lock.count ≥ 1)
    (hid : g._evthread_id_fn ≠ FnPtr.NULL →
      ∀ w, ∃ w1, K.call_id g._evthread_id_fn w = Outcome.ok me w1)
    (hown : g._evthread_id_fn ≠ FnPtr.NULL → lock.held_by = me) :
    ∃ w1, evthread_debug_lock_mark_unlocked K g mode lock w =
      Outcome.ok ()
        ({ lock with
            count := lock.count - 1
            held_by := if g._evthread_id_fn ≠ FnPtr.NULL ∧ lock.count = 1 then 0
                       else lock.held_by }, w1) := by
  have hge : lock.count - 1 ≥ 0 := by omega
  by_cases hn : g._evthread_id_fn ≠ FnPtr.NULL
  · obtain ⟨wi, hcall⟩ := hid hn w
    refine ⟨wi, ?_⟩
    unfold evthread_debug_lock_mark_unlocked EVUTIL_ASSERT
    rw [if_pos hmode, if_pos hn, hcall]
    dsimp only
    rw [if_pos (hown hn)]
    by_cases h1 : lock.count = 1
    · simp [h1, hn, int_decr_one]
    · simp [h1, hge, int_decr_of_pos lock.count hcount]
  · refine ⟨w, ?_⟩
    unfold evthread_debug_lock_mark_unlocked EVUTIL_ASSERT
    rw [if_pos hmode, if_neg hn]
    simp [hge, hn, int_decr_of_pos lock.count hcount]

/-- The bookkeeping of an acquisition that breaks no assertion. -/
theorem mark_locked_ok {W : Type} (K : Env W) (g : ProcessLockState)
    (mode me : Nat) (lock : debug_lock) (w : W)
    (hI4 : lock.locktype &&& K.EVTHREAD_LOCKTYPE_RECURSIVE = 0 → lock.count = 0)
    (hid : g._evthread_id_fn ≠ FnPtr.NULL →
      ∀ w, ∃ w1, K.call_id g._evthread_id_fn w = Outcome.ok me w1)
    (hown : g._evthread_id_fn ≠ FnPtr.NULL → lock.count ≥ 1 → lock.held_by = me) :
    ∃ w1, evthread_debug_lock_mark_locked K g mode lock w =
      Outcome.ok ()
        ({ lock with
            count := int_incr lock.count
            held_by := if g._evthread_id_fn ≠ FnPtr.NULL then me else lock.held_by },
          w1) := by
  have h1 : (lock.locktype &&& K.EVTHREAD_LOCKTYPE_RECURSIVE = 0 →
      int_incr lock.count = 1) := by
    intro h
    rw [hI4 h]
    exact int_incr_zero
  by_cases hn : g._evthread_id_fn ≠ FnPtr.NULL
  · obtain ⟨wi, hcall⟩ := hid hn w
    refine ⟨wi, ?_⟩
    unfold evthread_debug_lock_mark_locked EVUTIL_ASSERT
    dsimp only
    rw [if_pos h1, if_pos hn, hcall]
    have h2 : (int_incr lock.count > 1 → lock.held_by = me) :=
      fun h => hown hn (int_incr_gt_one lock.count h)
    dsimp only
    rw [if_pos h2, if_pos hn]
  · refine ⟨w, ?_⟩
    unfold evthread_debug_lock_mark_locked EVUTIL_ASSERT
    dsimp only
    rw [if_pos h1, if_neg hn, if_neg hn]

/-- The part of `debug_cond_wait` before the real wait, on a lock without the
READWRITE flag held by the calling thread: the held check passes and the
bookkeeping is released once. -/
theorem cond_wait_release_held {W : Type} (K : Env W) (g : ProcessLockState)
    (me : Nat) (lock : debug_lock) (w : W)
    (hrw : lock.locktype &&& K.EVTHREAD_LOCKTYPE_READWRITE = 0)
    (hcount : lock.count ≥ 1)
    (hid : g._evthread_id_fn ≠ FnPtr.NULL →
      ∀ w, ∃ w1, K.call_id g._evthread_id_fn w = Outcome.ok me w1)
    (hown : g._evthread_id_fn ≠ FnPtr.NULL → lock.held_by = me) :
    ∃ w1, debug_cond_wait_release K g lock w =
      Outcome.ok ()
        ({ lock with
            count := lock.count - 1
            held_by := if g._evthread_id_fn ≠ FnPtr.NULL ∧ lock.count = 1 then 0
                       else lock.held_by }, w1) := by
  have hmode : mode_fits K.toThreadH lock.locktype 0 := by
    unfold mode_fits
    simp [hrw]
  obtain ⟨wa, hheld⟩ := is_debug_lock_held_owner K g me lock w (by omega) hid hown
  obtain ⟨wb, hmark⟩ := mark_unlocked_held K g 0 me lock wa hmode hcount hid hown
  refine ⟨wb, ?_⟩
  unfold debug_cond_wait_release EVLOCK_ASSERT_LOCKED EVUTIL_ASSERT
  rw [hheld]
  dsimp only
  rw [if_pos (by decide), hmark]

/-- C13. For a debug lock without the READWRITE flag that the program has
brought from a fresh record to a held state (count ≥ 1, the owner being the
caller when an identity function is installed): `debug_cond_wait` reaches the
call of the real `wait_condition`; whatever status that call returns,
`debug_cond_wait` hits no fatal assertion, returns that status and leaves the
record exactly as it was before the call, same count and same owner, and
`_evthread_is_debug_lock_held` then returns 1. -/
theorem cond_wait_round_trip {W : Type} (K : Env W) (g : ProcessLockState)
    (me : Nat) (cond : Ptr) (l0 lock : debug_lock) (tv : Timeval) (w : W)
    (h0 : l0.count = 0)
    (hreach : LockReachable K l0 lock)
    (hrw : lock.locktype &&& K.EVTHREAD_LOCKTYPE_READWRITE = 0)
    (hcount : lock.count ≥ 1)
    (hid : g._evthread_id_fn ≠ FnPtr.NULL →
      ∀ w, ∃ w1, K.call_id g._evthread_id_fn w = Outcome.ok me w1)
    (hown : g._evthread_id_fn ≠ FnPtr.NULL → lock.held_by = me) :
    ∃ l1 w1, debug_cond_wait_release K g lock w = Outcome.ok () (l1, w1) ∧
      l1.lock = lock.lock ∧
      ∀ r w2,
        K.call_wait g._original_cond_fns.wait_condition cond lock.lock tv w1 =
          Outcome.ok r w2 →
        ∃ w3, debug_cond_wait K g cond lock tv w = Outcome.ok r (lock, w3) ∧
          ∃ w4, _evthread_is_debug_lock_held K g lock w3 = Outcome.ok 1 w4 := by
  obtain ⟨w1, hrel⟩ := cond_wait_release_held K g me lock w hrw hcount hid hown
  obtain ⟨hlt, hinv, hbound⟩ := lock_reachable_invariant K l0 lock h0 hreach
  refine ⟨_, w1, hrel, rfl, ?_⟩
  intro r w2 hwait
  have hinc : int_incr (lock.count - 1) = lock.count - 1 + 1 := by
    apply int_incr_of_ne
    unfold INT_MAX at hbound ⊢
    omega
  obtain ⟨w3, hmark⟩ := mark_locked_ok K g 0 me
    { lock with
        count := lock.count - 1
        held_by := if g._evthread_id_fn ≠ FnPtr.NULL ∧ lock.count = 1 then 0
                   else lock.held_by } w2
    (by
      intro hrec
      have hc := hinv (hlt ▸ hrec)
      show lock.count - 1 = 0
      omega)
    hid
    (by
      intro hn h
      have h2 : ¬ lock.count = 1 := by
        have h' : lock.count - 1 ≥ 1 := h
        omega
      show (if g._evthread_id_fn ≠ FnPtr.NULL ∧ lock.count = 1 then 0
            else lock.held_by) = me
      rw [if_neg (fun hh => h2 hh.2)]
      exact hown hn)
  dsimp only at hmark
  rw [hinc] at hmark
  have heq : ({ ({ lock with
        count := lock.count - 1
        held_by := if g._evthread_id_fn ≠ FnPtr.NULL ∧ lock.count = 1 then 0
                   else lock.held_by } : debug_lock) with
      count := lock.count - 1 + 1
      held_by := if g._evthread_id_fn ≠ FnPtr.NULL then me
                 else (if g._evthread_id_fn ≠ FnPtr.NULL ∧ lock.count = 1 then 0
                       else lock.held_by) } : debug_lock) = lock := by
    by_cases hn : g._evthread_id_fn ≠ FnPtr.NULL
    · have ho := hown hn
      cases lock
      simp only [if_pos hn] at ho ⊢
      simp [ho]
    · cases lock
      simp [hn]
  obtain ⟨w4, hheld⟩ := is_debug_lock_held_owner K g me lock w3 (by omega) hid hown
  refine ⟨w3, ?_, w4, hheld⟩
  unfold debug_cond_wait
  rw [hrel]
  dsimp only
  rw [hwait]
  dsimp only
  rw [hmark]
  dsimp only
  rw [heq]

/-- C13 at a concrete input: with the condition set `cond_fns_C` installed, so
that the real wait function is the one at `app 14`, the lock of the scenario,
acquired once by thread 42, waits on a condition. -/
theorem cond_wait_round_trip_witness :
    scenario_state_cond._original_cond_fns.wait_condition = FnPtr.app 14 ∧
    ∃ w3, debug_cond_wait (thread_env 42 7) scenario_state_cond 3
        { locktype := 0, held_by := 42, count := 1, lock := 7 } none
        { allocated := 1, locked := 1 } =
      Outcome.ok 0 ({ locktype := 0, held_by := 42, count := 1, lock := 7 }, w3) ∧
      ∃ w4, _evthread_is_debug_lock_held (thread_env 42 7) scenario_state_cond
        { locktype := 0, held_by := 42, count := 1, lock := 7 } w3 = Outcome.ok 1 w4 := by
  obtain ⟨l1, w1, _, _, h⟩ :=
    cond_wait_round_trip (thread_env 42 7) scenario_state_cond 42 3
      { locktype := 0, held_by := 0, count := 0, lock := 7 }
      { locktype := 0, held_by := 42, count := 1, lock := 7 } none
      { allocated := 1, locked := 1 } rfl
      (LockReachable.step { locktype := 0, held_by := 0, count := 0, lock := 7 }
        { locktype := 0, held_by := 42, count := 1, lock := 7 }
        scenario_state_cond (DebugOp.lock 0)
        { allocated := 1, locked := 0 } { allocated := 1, locked := 1 } 0
        LockReachable.start (by decide))
      (by decide) (by decide) (fun _ w => ⟨w, rfl⟩) (fun _ => rfl)
  have hp : scenario_state_cond._original_cond_fns.wait_condition = FnPtr.app 14 := by
    decide
  exact ⟨hp, h 0 w1 (by rw [hp]; rfl)⟩

/-- C14 as stated fails: a recursive lock acquired twice by thread 42 has
count 2; at the point where `debug_cond_wait` calls the real wait the
bookkeeping has been released once, the count is 1 and the owner still 42, and
`_evthread_is_debug_lock_held` returns 1 for the caller, not 0. -/
theorem cond_wait_recursive_still_held :
    run_ops (thread_env 42 7) scenario_state_id [DebugOp.lock 0, DebugOp.lock 0]
        { locktype := 1, held_by := 0, count := 0, lock := 7 }
        { allocated := 1, locked := 0 } =
      Outcome.ok () ({ locktype := 1, held_by := 42, count := 2, lock := 7 },
        { allocated := 1, locked := 2 }) ∧
    debug_cond_wait_release (thread_env 42 7) scenario_state_id
        { locktype := 1, held_by := 42, count := 2, lock := 7 }
        { allocated := 1, locked := 2 } =
      Outcome.ok () ({ locktype := 1, held_by := 42, count := 1, lock := 7 },
        { allocated := 1, locked := 2 }) ∧
    _evthread_is_debug_lock_held (thread_env 42 7) scenario_state_id
        { locktype := 1, held_by := 42, count := 1, lock := 7 }
        { allocated := 1, locked := 2 } =
      Outcome.ok 1 { allocated := 1, locked := 2 } := by
  decide

/-- C14, amended. For a debug lock without the READWRITE flag held by the
calling thread, `debug_cond_wait` reaches the call of the real wait with the
bookkeeping released once. When the count was exactly 1, as for every held
non-recursive lock, `_evthread_is_debug_lock_held` returns 0 at that point.
When the count was 2 or more, the count is still positive, the owner is
unchanged and `_evthread_is_debug_lock_held` returns 1 for the caller. -/
theorem cond_wait_release_reported {W : Type} (K : Env W) (g : ProcessLockState)
    (me : Nat) (lock : debug_lock) (w : W)
    (hrw : lock.locktype &&& K.EVTHREAD_LOCKTYPE_READWRITE = 0)
    (hcount : lock.count ≥ 1)
    (hid : g._evthread_id_fn ≠ FnPtr.NULL →
      ∀ w, ∃ w1, K.call_id g._evthread_id_fn w = Outcome.ok me w1)
    (hown : g._evthread_id_fn ≠ FnPtr.NULL → lock.held_by = me) :
    ∃ l1 w1, debug_cond_wait_release K g lock w = Outcome.ok () (l1, w1) ∧
      l1.count = lock.count - 1 ∧
      (lock.count = 1 → ∀ w2, _evthread_is_debug_lock_held K g l1 w2 = Outcome.ok 0 w2) ∧
      (lock.count ≥ 2 → ∃ w2, _evthread_is_debug_lock_held K g l1 w1 = Outcome.ok 1 w2) := by
  obtain ⟨w1, hrel⟩ := cond_wait_release_held K g me lock w hrw hcount hid hown
  refine ⟨_, w1, hrel, rfl, ?_, ?_⟩
  · intro h1 w2
    unfold _evthread_is_debug_lock_held
    dsimp only
    rw [if_pos (by omega)]
  · intro h2
    apply is_debug_lock_held_owner K g me _ w1 _ hid
    · intro hn
      show (if g._evthread_id_fn ≠ FnPtr.NULL ∧ lock.count = 1 then 0
            else lock.held_by) = me
      rw [if_neg (fun hh => by omega)]
      exact hown hn
    · show lock.count - 1 ≠ 0
      omega

/-- C14, amended, at a concrete input: the lock of the scenario, held once by
thread 42. -/
theorem cond_wait_release_reported_witness :
    ∃ l1 w1, debug_cond_wait_release (thread_env 42 7) scenario_state_id
        { locktype := 0, held_by := 42, count := 1, lock := 7 }
        { allocated := 1, locked := 1 } = Outcome.ok () (l1, w1) ∧
      ∀ w2, _evthread_is_debug_lock_held (thread_env 42 7) scenario_state_id l1 w2 =
        Outcome.ok 0 w2 := by
  obtain ⟨l1, w1, h1, _, h3, _⟩ :=
    cond_wait_release_reported (thread_env 42 7) scenario_state_id 42
      { locktype := 0, held_by := 42, count := 1, lock := 7 }
      { allocated := 1, locked := 1 }
      (by decide) (by decide) (fun _ w => ⟨w, rfl⟩) (fun _ => rfl)
  exact ⟨l1, w1, h1, h3 rfl⟩

/-! ## Freed locks, order of registration, orchestrator case 2 -/

/-- C15 as stated fails: a recursive debug lock freed by `debug_lock_free`
is left with count -100, and a `debug_lock_lock` on that record hits no
assertion: it returns 0 with count -99. On a freed lock of any locktype, a
`debug_lock_lock` whose real lock call returns non-zero hits no assertion
either: it hands that status back and leaves the record alone. -/
theorem lock_after_free_recursive_not_fatal :
    debug_lock_free (counting_env 7) scenario_state
        { locktype := 1, held_by := 0, count := 0, lock := 7 } 1
        { allocated := 1, locked := 0 } =
      Outcome.ok () ({ locktype := 1, held_by := 0, count := -100, lock := 0 },
        { allocated := 0, locked := 0 }) ∧
    debug_lock_lock (counting_env 7) scenario_state 0
        { locktype := 1, held_by := 0, count := -100, lock := 0 }
        { allocated := 0, locked := 0 } =
      Outcome.ok 0 ({ locktype := 1, held_by := 0, count := -99, lock := 0 },
        { allocated := 0, locked := 1 }) ∧
    debug_lock_lock refusing_env scenario_state 0
        { locktype := 0, held_by := 0, count := -100, lock := 0 }
        { allocated := 0, locked := 0 } =
      Outcome.ok 1 ({ locktype := 0, held_by := 0, count := -100, lock := 0 },
        { allocated := 0, locked := 0 }) := by
  decide

/-- C15, amended. `debug_lock_free` ends in a fatal assertion when the count
is not 0 or the locktype does not match; otherwise, once the real free
function (if installed) has returned, it clears the real-lock field and sets
the count to -100. On a record with count -100, every `debug_lock_free` and
every `debug_lock_unlock`, for every locktype and every mode, ends fatally,
and so does every `debug_lock_lock` with a fitting mode on a locktype without
the RECURSIVE flag when the real lock call, if any, returns 0. -/
theorem debug_lock_free_poisons {W : Type} (K : Env W) (g : ProcessLockState)
    (lock : debug_lock) (locktype : Nat) (w : W) :
    (lock.count ≠ 0 → debug_lock_free K g lock locktype w = Outcome.fatal (lock, w)) ∧
    (locktype ≠ lock.locktype →
      debug_lock_free K g lock locktype w = Outcome.fatal (lock, w)) ∧
    (∀ w1, lock.count = 0 → locktype = lock.locktype →
      (if g._original_lock_fns.free ≠ FnPtr.NULL then
         K.call_free g._original_lock_fns.free lock.lock
           (lock.locktype ||| K.EVTHREAD_LOCKTYPE_RECURSIVE) w
       else Outcome.ok () w) = Outcome.ok () w1 →
      debug_lock_free K g lock locktype w =
        Outcome.ok () ({ lock with lock := 0, count := -100 }, w1)) ∧
    (∀ p : debug_lock, p.count = -100 →
      (∀ lt w2, debug_lock_free K g p lt w2 = Outcome.fatal (p, w2)) ∧
      (∀ m w2, ∃ st, debug_lock_unlock K g m p w2 = Outcome.fatal st) ∧
      (∀ m w2 w3, p.locktype &&& K.EVTHREAD_LOCKTYPE_RECURSIVE = 0 →
        mode_fits K.toThreadH p.locktype m →
        real_lock_result K g m p.lock w2 = Outcome.ok 0 w3 →
        debug_lock_lock K g m p w2 = Outcome.fatal ({ p with count := -99 }, w3))) := by
  refine ⟨?_, ?_, ?_, ?_⟩
  · intro hc
    unfold debug_lock_free EVUTIL_ASSERT
    rw [if_neg hc]
  · intro hl
    unfold debug_lock_free EVUTIL_ASSERT
    by_cases hc : lock.count = 0
    · rw [if_pos hc, if_neg hl]
    · rw [if_neg hc]
  · intro w1 hc hl hfree
    unfold debug_lock_free EVUTIL_ASSERT
    rw [if_pos hc, if_pos hl, hfree]
  · intro p hp
    refine ⟨?_, ?_, ?_⟩
    · intro lt w2
      unfold debug_lock_free EVUTIL_ASSERT
      rw [if_neg (by rw [hp]; decide)]
    · intro m w2
      cases hm : evthread_debug_lock_mark_unlocked K g m p w2 with
      | fatal st =>
        refine ⟨st, ?_⟩
        unfold debug_lock_unlock
        rw [hm]
      | ok u st =>
        exfalso
        obtain ⟨l1, w3⟩ := st
        obtain ⟨_, h2, h3⟩ := mark_unlocked_ok_fields K g m p l1 w2 w3 hm
        have hd : int_decr (-100) = -101 := by decide
        rw [hp, hd] at h2
        omega
    · intro m w2 w3 hrec hmode hreal
      have h := debug_lock_lock_held K g m p w2 w3 hrec (by rw [hp]; decide) hmode hreal
      have hi : int_incr (-100) = -99 := by decide
      rw [h, hp, hi]

/-- C19 as stated fails: in case 2 with locktype 0 the real lock 5 is freed,
and the lock returned wraps the real lock 7 that `debug_lock_alloc` has newly
obtained from the original alloc callback: its real-lock field is not null,
unlike the lock case 1 returns. -/
theorem setup_global_lock_case2_not_bare :
    evthread_setup_global_lock_ (counting_env 7) scenario_state true
        (LockHandle.real 5) 0 0 { allocated := 1, locked := 0 } =
      some (Outcome.ok
        (LockHandle.debug { locktype := 0, held_by := 0, count := 0, lock := 7 })
        { allocated := 1, locked := 0 }) ∧
    (counting_env 7).call_free scenario_state._original_lock_fns.free 5 0
        { allocated := 1, locked := 0 } =
      Outcome.ok () { allocated := 0, locked := 0 } ∧
    evthread_setup_global_lock_ (counting_env 7) initial_state true
        (LockHandle.real 0) 0 0 { allocated := 0, locked := 0 } =
      some (Outcome.ok
        (LockHandle.debug { locktype := 0, held_by := 0, count := 0, lock := 0 })
        { allocated := 0, locked := 0 }) := by
  decide

/-- C19, amended. In case 2 of `evthread_setup_global_lock_` (enable_locks
= 0, an original lock set present) with a non-null real lock handle and a
locktype without the RECURSIVE flag, the given real lock is passed to the
original free callback with that locktype, and the result is what
`debug_lock_alloc` returns for the locktype afterwards: when memory is handed
out and the original alloc callback, called with locktype | RECURSIVE, returns
a non-null handle, a fresh debug lock with the locktype given, count 0, no
owner and that handle as its real lock; null when memory or the real lock
cannot be had. -/
theorem setup_global_lock_case2_nonrecursive {W : Type} (K : Env W)
    (g : ProcessLockState) (mm_malloc_ok : Bool) (h : Ptr) (locktype : Nat) (w w1 : W)
    (hcase : g._original_lock_fns.alloc ≠ FnPtr.NULL)
    (hh : h ≠ 0)
    (hrec : locktype &&& K.EVTHREAD_LOCKTYPE_RECURSIVE = 0)
    (hfree : K.call_free g._original_lock_fns.free h locktype w = Outcome.ok () w1) :
    evthread_setup_global_lock_ K g mm_malloc_ok (LockHandle.real h) locktype 0 w =
      some (debug_lock_alloc_handle K g mm_malloc_ok locktype w1) ∧
    (∀ h2 w2, mm_malloc_ok = true →
      K.call_alloc g._original_lock_fns.alloc
        (locktype ||| K.EVTHREAD_LOCKTYPE_RECURSIVE) w1 = Outcome.ok h2 w2 →
      (h2 ≠ 0 →
        evthread_setup_global_lock_ K g mm_malloc_ok (LockHandle.real h) locktype 0 w =
          some (Outcome.ok
            (LockHandle.debug { locktype := locktype, held_by := 0, count := 0, lock := h2 })
            w2)) ∧
      (h2 = 0 →
        evthread_setup_global_lock_ K g mm_malloc_ok (LockHandle.real h) locktype 0 w =
          some (Outcome.ok (LockHandle.real 0) w2))) ∧
    (mm_malloc_ok = false →
      evthread_setup_global_lock_ K g mm_malloc_ok (LockHandle.real h) locktype 0 w =
        some (Outcome.ok (LockHandle.real 0) w1)) := by
  have hmain : evthread_setup_global_lock_ K g mm_malloc_ok (LockHandle.real h) locktype 0 w =
      some (debug_lock_alloc_handle K g mm_malloc_ok locktype w1) := by
    unfold evthread_setup_global_lock_ EVUTIL_ASSERT
    have hc1 : ¬ ((0 : Int) = 0 ∧ g._original_lock_fns.alloc = FnPtr.NULL) :=
      fun hx => hcase hx.2
    have hc2 : (0 : Int) = 0 ∧ g._original_lock_fns.alloc ≠ FnPtr.NULL := ⟨rfl, hcase⟩
    rw [if_neg hc1, if_pos hc2]
    dsimp only
    rw [if_pos hh, if_pos hrec, hfree]
  refine ⟨hmain, ?_, ?_⟩
  · intro h2 w2 hm halloc
    constructor
    · intro hne
      rw [hmain]
      unfold debug_lock_alloc_handle debug_lock_alloc
      simp [hm, hcase, halloc, hne]
    · intro he
      rw [hmain]
      unfold debug_lock_alloc_handle debug_lock_alloc
      simp [hm, hcase, halloc, he]
  · intro hm
    rw [hmain]
    unfold debug_lock_alloc_handle debug_lock_alloc
    simp [hm]

/-- C19, amended, at a concrete input: the globals of the scenario, the real
lock 5 of locktype 0. -/
theorem setup_global_lock_case2_nonrecursive_witness :
    evthread_setup_global_lock_ (counting_env 7) scenario_state true
        (LockHandle.real 5) 0 0 { allocated := 1, locked := 0 } =
      some (debug_lock_alloc_handle (counting_env 7) scenario_state true 0
        { allocated := 0, locked := 0 }) :=
  (setup_global_lock_case2_nonrecursive (counting_env 7) scenario_state true 5 0
    { allocated := 1, locked := 0 } { allocated := 0, locked := 0 }
    (by decide) (by decide) (by decide) (by decide)).1

/-- C15, amended, at a concrete input: a freed recursive lock, released or
freed again. -/
theorem debug_lock_free_poisons_witness :
    (∀ lt w2, debug_lock_free (counting_env 7) scenario_state
        { locktype := 1, held_by := 0, count := -100, lock := 0 } lt w2 =
      Outcome.fatal ({ locktype := 1, held_by := 0, count := -100, lock := 0 }, w2)) ∧
    (∀ m w2, ∃ st, debug_lock_unlock (counting_env 7) scenario_state m
        { locktype := 1, held_by := 0, count := -100, lock := 0 } w2 =
      Outcome.fatal st) :=
  ⟨((debug_lock_free_poisons (counting_env 7) scenario_state
      { locktype := 1, held_by := 0, count := 0, lock := 7 } 1
      { allocated := 1, locked := 0 }).2.2.2
      { locktype := 1, held_by := 0, count := -100, lock := 0 } rfl).1,
   ((debug_lock_free_poisons (counting_env 7) scenario_state
      { locktype := 1, held_by := 0, count := 0, lock := 7 } 1
      { allocated := 1, locked := 0 }).2.2.2
      { locktype := 1, held_by := 0, count := -100, lock := 0 } rfl).2.1⟩

end Evthread
